import Mathlib

/-!
Shallow embedding of the core of the `rust-path-tracer` renderer
(crates/lib/pathtracer).  32-bit floats are modelled as real numbers, the
thread-local random generator as an explicit stream of reals, and trait
objects as structures of functions.  Definitions follow the Rust source
file by file; theorems at the end of the file settle the specification
claims.
-/

namespace PathTracer

noncomputable section

/-! ## math.rs: Vector3 and scalar helpers -/

/-- `cgmath::Vector3<f32>`, modelled over the reals. -/
structure Vector3 where
  x : ℝ
  y : ℝ
  z : ℝ
deriving DecidableEq

instance : Add Vector3 := ⟨fun a b => ⟨a.x + b.x, a.y + b.y, a.z + b.z⟩⟩

instance : Sub Vector3 := ⟨fun a b => ⟨a.x - b.x, a.y - b.y, a.z - b.z⟩⟩

instance : Neg Vector3 := ⟨fun a => ⟨-a.x, -a.y, -a.z⟩⟩

/-- `cgmath` scalar multiplication `v * k` / `k * v`. -/
def Vector3.scale (v : Vector3) (k : ℝ) : Vector3 := ⟨v.x * k, v.y * k, v.z * k⟩

/-- `cgmath` scalar division `v / k`. -/
def Vector3.divS (v : Vector3) (k : ℝ) : Vector3 := ⟨v.x / k, v.y / k, v.z / k⟩

/-- `cgmath::dot`. -/
def Vector3.dot (a b : Vector3) : ℝ := a.x * b.x + a.y * b.y + a.z * b.z

/-- `cgmath` cross product. -/
def Vector3.cross (a b : Vector3) : Vector3 :=
  ⟨a.y * b.z - a.z * b.y, a.z * b.x - a.x * b.z, a.x * b.y - a.y * b.x⟩

/-- `EnhancedVector::squared_length`. -/
def Vector3.squared_length (v : Vector3) : ℝ := v.x * v.x + v.y * v.y + v.z * v.z

/-- `EnhancedVector::length`. -/
def Vector3.length (v : Vector3) : ℝ := Real.sqrt v.squared_length

/-- `EnhancedVector::unit`. -/
def Vector3.unit (v : Vector3) : Vector3 :=
  ⟨v.x / v.length, v.y / v.length, v.z / v.length⟩

/-- `EnhancedVector::min` (componentwise). -/
def Vector3.min (a b : Vector3) : Vector3 :=
  ⟨Min.min a.x b.x, Min.min a.y b.y, Min.min a.z b.z⟩

/-- `EnhancedVector::max` (componentwise). -/
def Vector3.max (a b : Vector3) : Vector3 :=
  ⟨Max.max a.x b.x, Max.max a.y b.y, Max.max a.z b.z⟩

/-- `EnhancedVector::zero`. -/
def Vector3.zero : Vector3 := ⟨0, 0, 0⟩

/-- `EnhancedVector::one`. -/
def Vector3.one : Vector3 := ⟨1, 1, 1⟩

/-- `EnhancedVector::mul` (componentwise product). -/
def Vector3.mul (a b : Vector3) : Vector3 := ⟨a.x * b.x, a.y * b.y, a.z * b.z⟩

/-- scalar `clamp` from math.rs: `v.min(max).max(min)`. -/
def clamp (v lo hi : ℝ) : ℝ := Max.max (Min.min v hi) lo

/-- `EnhancedVector::clamp` (componentwise). -/
def Vector3.clampv (v : Vector3) (lo hi : ℝ) : Vector3 :=
  ⟨clamp v.x lo hi, clamp v.y lo hi, clamp v.z lo hi⟩

/-- `smoothstep` from math.rs. -/
def smoothstep (edge0 edge1 x : ℝ) : ℝ :=
  let x' := clamp ((x - edge0) / (edge1 - edge0)) 0 1
  x' * x' * (3 - 2 * x')

/-- `saturate` from math.rs. -/
def saturate (value : ℝ) : ℝ := clamp value 0 1

/-- `consts.rs`: `LUMINANCE`. -/
def LUMINANCE : Vector3 := ⟨0.2126, 0.7152, 0.0722⟩

/-- `consts.rs`: `MIN_DIELECTRICS_F0`. -/
def MIN_DIELECTRICS_F0 : ℝ := 0.04

/-- `consts.rs`: `MIN_DIELECTRICS_F0_VEC`. -/
def MIN_DIELECTRICS_F0_VEC : Vector3 :=
  ⟨MIN_DIELECTRICS_F0, MIN_DIELECTRICS_F0, MIN_DIELECTRICS_F0⟩

/-- `luminance` from math.rs. -/
def luminance (rgb : Vector3) : ℝ := rgb.dot LUMINANCE

/-- `to_v3` from math.rs. -/
def to_v3 (v : ℝ) : Vector3 := ⟨v, v, v⟩

/-- `lerp_scalar` from math.rs. -/
def lerp_scalar (v1 v2 f : ℝ) : ℝ := (1 - f) * v1 + f * v2

/-- `lerp` from math.rs (componentwise). -/
def lerp (v1 v2 : Vector3) (f : ℝ) : Vector3 :=
  ⟨lerp_scalar v1.x v2.x f, lerp_scalar v1.y v2.y f, lerp_scalar v1.z v2.z f⟩

/-- `TWO_PI` from math.rs. -/
def TWO_PI : ℝ := 2 * Real.pi

/-- `ONE_OVER_PI` from math.rs. -/
def ONE_OVER_PI : ℝ := 1 / Real.pi

/-- `schlick` from math.rs. -/
def schlick (cosine ref_index : ℝ) : ℝ :=
  let r0 := (1 - ref_index) / (1 + ref_index)
  let r0 := r0 * r0
  r0 + (1 - r0) * (1 - cosine) ^ (5 : ℕ)

/-- `reflect` from math.rs. -/
def reflect (dir normal : Vector3) : Vector3 :=
  dir - normal.scale (2 * dir.dot normal)

/-- `refract` from math.rs. -/
def refract (dir normal : Vector3) (ni_over_nt : ℝ) : Option Vector3 :=
  let u := dir.unit
  let dt := u.dot normal
  let discriminant := 1 - ni_over_nt * ni_over_nt * (1 - dt * dt)
  if 0 < discriminant then
    some ((u - normal.scale dt).scale ni_over_nt - normal.scale (Real.sqrt discriminant))
  else
    none

/-- `base_color_to_specular_f0` from math.rs. -/
def base_color_to_specular_f0 (base_color : Vector3) (metalness : ℝ) : Vector3 :=
  lerp MIN_DIELECTRICS_F0_VEC base_color metalness

/-- `base_color_to_diffuse_reflectance` from math.rs. -/
def base_color_to_diffuse_reflectance (base_color : Vector3) (metalness : ℝ) : Vector3 :=
  base_color.scale (1 - metalness)

/-- `eval_fresnel` (Schlick) from math.rs. -/
def eval_fresnel (f0 f90 : Vector3) (n_dot_s : ℝ) : Vector3 :=
  f0 + (f90 - f0).scale ((1 - n_dot_s) ^ (5 : ℕ))

/-- `shadowed_f90` from math.rs. -/
def shadowed_f90 (f0 : Vector3) : ℝ :=
  let t := 1 / MIN_DIELECTRICS_F0
  Min.min (t * luminance f0) 1

/-! ## math.rs: quaternions (`cgmath::Quaternion<f32>`) -/

/-- `cgmath::Quaternion<f32>`: scalar part `s` and vector part `v`.
`Quaternion::new(w, xi, yj, zk)` is `⟨w, ⟨xi, yj, zk⟩⟩`. -/
structure Quaternion where
  s : ℝ
  v : Vector3

/-- `cgmath` quaternion magnitude: `sqrt (s² + |v|²)`. -/
def Quaternion.magnitude (q : Quaternion) : ℝ :=
  Real.sqrt (q.s * q.s + q.v.dot q.v)

/-- `cgmath` `normalize`: divide every component by the magnitude. -/
def Quaternion.normalize (q : Quaternion) : Quaternion :=
  ⟨q.s / q.magnitude, ⟨q.v.x / q.magnitude, q.v.y / q.magnitude, q.v.z / q.magnitude⟩⟩

/-- `get_rotation_to_z_axis` from math.rs.  Input must be normalized. -/
def get_rotation_to_z_axis (input : Vector3) : Quaternion :=
  if input.z < -0.99999 then ⟨0, ⟨1, 0, 0⟩⟩
  else Quaternion.normalize ⟨1 + input.z, ⟨input.y, -input.x, 0⟩⟩

/-- `get_rotation_from_z_axis` from math.rs.  Input must be normalized. -/
def get_rotation_from_z_axis (input : Vector3) : Quaternion :=
  if input.z < -0.99999 then ⟨0, ⟨1, 0, 0⟩⟩
  else Quaternion.normalize ⟨1 + input.z, ⟨-input.y, input.x, 0⟩⟩

/-- `invert_rotation` from math.rs. -/
def invert_rotation (q : Quaternion) : Quaternion :=
  ⟨q.s, ⟨-q.v.x, -q.v.y, -q.v.z⟩⟩

/-- `rotate_point` from math.rs. -/
def rotate_point (q : Quaternion) (v : Vector3) : Vector3 :=
  let q_axis := q.v
  q_axis.scale (2 * q_axis.dot v) + v.scale (q.s * q.s - q_axis.dot q_axis) +
    (q_axis.cross v).scale (2 * q.s)

/-! ## math.rs: the progressive `Average` accumulator -/

/-- `Average` from math.rs (`spp` is an `i32`). -/
structure Average where
  spp : ℤ
  prev_pass_add : ℝ
  this_pass_add : ℝ

/-- `Default for Average`. -/
def Average.default : Average := ⟨0, 0, 0⟩

/-- `Average::next_frame`. -/
def Average.next_frame (a : Average) : Average :=
  ⟨a.spp + 1, (a.spp : ℝ) / ((a.spp : ℝ) + 1), 1 / ((a.spp : ℝ) + 1)⟩

/-- `Average::average`, instantiated (as the renderer does) at `U = Vector3`. -/
def Average.average (a : Average) (prev new : Vector3) : Vector3 :=
  let prev_value := prev.scale (if a.spp = 1 then 0 else a.prev_pass_add)
  new.scale a.this_pass_add + prev_value

/-- State of the accumulator after `n` calls to `next_frame`, starting from
the default state. -/
def iterFrames : ℕ → Average
  | 0 => Average.default
  | n + 1 => (iterFrames n).next_frame

/-- Running mean after feeding `n` identical samples `v` (one per frame),
starting from buffer contents `m0`. -/
def meanAfter (v m0 : Vector3) : ℕ → Vector3
  | 0 => m0
  | n + 1 => (iterFrames (n + 1)).average (meanAfter v m0 n) v

/-! ## random.rs: the uniform sampler

The Rust `UniformSampler` draws from the thread-local RNG through interior
mutability.  It is modelled as an explicit stream of the values produced by
successive `next_float()` calls together with a cursor; every call returns
the current value and advances the cursor. -/

/-- `UniformSampler` from random.rs, as a stream of `next_float()` results. -/
structure UniformSampler where
  stream : ℕ → ℝ
  pos : ℕ

/-- `Sampler::next_float` for `UniformSampler`. -/
def UniformSampler.next_float (s : UniformSampler) : ℝ × UniformSampler :=
  (s.stream s.pos, ⟨s.stream, s.pos + 1⟩)

/-- `sample_hemisphere` from math.rs (returns direction, pdf and the advanced
sampler). -/
def sample_hemisphere (sampler : UniformSampler) : (Vector3 × ℝ) × UniformSampler :=
  let (ux, s1) := sampler.next_float
  let (uy, s2) := s1.next_float
  let a := Real.sqrt ux
  let b := TWO_PI * uy
  let result : Vector3 := ⟨a * Real.cos b, a * Real.sin b, Real.sqrt (1 - ux)⟩
  ((result, result.z * ONE_OVER_PI), s2)

/-! ## ray.rs -/

/-- `Ray` from ray.rs. -/
structure Ray where
  origin : Vector3
  direction : Vector3

/-- `Ray::point_at`. -/
def Ray.point_at (r : Ray) (distance : ℝ) : Vector3 :=
  r.origin + r.direction.scale distance

/-- `std::f32::EPSILON` = 2⁻²³. -/
def EPSILON : ℝ := 1 / 8388608

/-! ## mesh.rs: vertices and triangles -/

/-- `Vertex` from mesh.rs. -/
structure Vertex where
  pos : Vector3
  uv : ℝ × ℝ

/-- `Triangle` from mesh.rs (`vertex: [Vertex; 3]`). -/
structure Triangle where
  vertex : Fin 3 → Vertex

/-- `TriangleIntersection` from ray.rs. -/
structure TriangleIntersection where
  t : ℝ
  uv : ℝ × ℝ
  normal : Vector3
  tangent : Vector3
  bitangent : Vector3

/-- `ray_triangle_intersection` from ray.rs (Möller–Trumbore). -/
def ray_triangle_intersection (ray : Ray) (triangle : Triangle)
    (single_sided : Bool) (t_min t_max : ℝ) : Option TriangleIntersection :=
  let v0v1 := (triangle.vertex 1).pos - (triangle.vertex 0).pos
  let v0v2 := (triangle.vertex 2).pos - (triangle.vertex 0).pos
  let pvec := ray.direction.cross v0v2
  let det := v0v1.dot pvec
  if |det| < EPSILON then none
  else
    let inv_det := 1 / det
    let tvec := ray.origin - (triangle.vertex 0).pos
    let u := tvec.dot pvec * inv_det
    if ¬(0 ≤ u ∧ u ≤ 1) then none
    else
      let qvec := tvec.cross v0v1
      let v := ray.direction.dot qvec * inv_det
      if v < 0 ∨ 1 < u + v then none
      else
        let normal := (v0v1.cross v0v2).unit
        if 0 < ray.direction.dot normal ∧ single_sided then none
        else
          let t := v0v2.dot qvec * inv_det
          if t < t_min ∨ t_max < t then none
          else
            let uv0v1_x := (triangle.vertex 1).uv.1 - (triangle.vertex 0).uv.1
            let uv0v1_y := (triangle.vertex 1).uv.2 - (triangle.vertex 0).uv.2
            let uv0v2_x := (triangle.vertex 2).uv.1 - (triangle.vertex 0).uv.1
            let uv0v2_y := (triangle.vertex 2).uv.2 - (triangle.vertex 0).uv.2
            let bu := (triangle.vertex 0).uv.1 + u * uv0v1_x + v * uv0v2_x
            let bv := (triangle.vertex 0).uv.2 + u * uv0v1_y + v * uv0v2_y
            let f := 1 / (uv0v1_x * uv0v2_y - uv0v2_x * uv0v1_y)
            let tangent := ((v0v1.scale uv0v2_y - v0v2.scale uv0v1_y).scale f).unit
            let bitangent := ((v0v1.scale (-uv0v2_x) + v0v2.scale uv0v1_x).scale f).unit
            some ⟨t, (bu, bv), normal, tangent, bitangent⟩

/-! ## material.rs: textures, samplers, materials -/

/-- `Filtering` from material.rs. -/
inductive Filtering where
  | Nearest
  | Linear
deriving DecidableEq

/-- `WrapMode` from material.rs. -/
inductive WrapMode where
  | Clamp
  | Repeat
  | MirroredRepeat
deriving DecidableEq

/-- `AlphaMode` from material.rs. -/
inductive AlphaMode where
  | Opaque
  | Mask (cutoff : ℝ)
  | Blend

/-- `Texture` from material.rs: the pixel buffer holds bytes (0..255). -/
structure Texture where
  width : ℕ
  height : ℕ
  rgba : List ℕ
  pixel_size : ℕ

/-- Texture `Sampler` from material.rs. -/
structure Sampler where
  filtering : Filtering
  wrap_s : WrapMode
  wrap_t : WrapMode

/-- Rust `f32 as u32`: truncate toward zero and saturate below at 0. -/
def toU32 (x : ℝ) : ℕ := (⌊x⌋).toNat

/-- Rust `f32::fract` (fractional part, toward zero). -/
def rustFract (x : ℝ) : ℝ := if 0 ≤ x then x - ⌊x⌋ else x - ⌈x⌉

/-- `Sampler::nearest` from material.rs.  Out-of-bounds buffer reads (which
panic in Rust and never happen for well-formed textures) yield byte 0. -/
def Sampler.nearest (_s : Sampler) (texture : Texture) (x y : ℝ) : ℝ × ℝ × ℝ × ℝ :=
  let tx := Min.min (toU32 (x + 0.5)) (texture.width - 1)
  let ty := Min.min (toU32 (y + 0.5)) (texture.height - 1)
  let index := (ty * texture.width + tx) * texture.pixel_size
  ((texture.rgba.getD index 0 : ℝ) / 255,
    (texture.rgba.getD (index + 1) 0 : ℝ) / 255,
    (texture.rgba.getD (index + 2) 0 : ℝ) / 255,
    (texture.rgba.getD (index + 3) 0 : ℝ) / 255)

/-- `Sampler::lerp` from material.rs. -/
def Sampler.lerp4 (p1 p2 : ℝ × ℝ × ℝ × ℝ) (t : ℝ) : ℝ × ℝ × ℝ × ℝ :=
  (p1.1 * (1 - t) + p2.1 * t,
    p1.2.1 * (1 - t) + p2.2.1 * t,
    p1.2.2.1 * (1 - t) + p2.2.2.1 * t,
    p1.2.2.2 * (1 - t) + p2.2.2.2 * t)

/-- `Sampler::linear` from material.rs. -/
def Sampler.linear (s : Sampler) (texture : Texture) (x y : ℝ) : ℝ × ℝ × ℝ × ℝ :=
  let sx := (⌊x⌋ : ℝ)
  let sy := (⌊y⌋ : ℝ)
  let p1 := s.nearest texture sx sy
  let p2 := s.nearest texture (sx + 1) sy
  let p3 := s.nearest texture sx (sy + 1)
  let p4 := s.nearest texture (sx + 1) (sy + 1)
  let x_frac := rustFract x
  let p12 := Sampler.lerp4 p1 p2 x_frac
  let p23 := Sampler.lerp4 p3 p4 x_frac
  Sampler.lerp4 p12 p23 (rustFract y)

/-- `Sampler::sample` from material.rs.  The Rust code asserts that both wrap
modes are `Repeat`; the model computes the `Repeat` behaviour. -/
def Sampler.sample (s : Sampler) (texture : Texture) (uv : ℝ × ℝ) : ℝ × ℝ × ℝ × ℝ :=
  let add : ℝ × ℝ := (if uv.1 < 0 then 1 else 0, if uv.2 < 0 then 1 else 0)
  let u := add.1 + rustFract uv.1
  let v := add.2 + rustFract uv.2
  let x := u * ((texture.width - 1 : ℕ) : ℝ)
  let y := v * ((texture.height - 1 : ℕ) : ℝ)
  match s.filtering with
  | Filtering.Linear => s.linear texture x y
  | Filtering.Nearest => s.nearest texture x y

/-- `TextureSampler` from material.rs. -/
structure TextureSampler where
  texture : Texture
  sampler : Sampler

/-- `TextureSampler::sample`. -/
def TextureSampler.sample (ts : TextureSampler) (uv : ℝ × ℝ) : ℝ × ℝ × ℝ × ℝ :=
  ts.sampler.sample ts.texture uv

/-! ## brdf.rs: resolved materials and the BRDF interface -/

/-- `ResolvedMaterial` from brdf.rs. -/
structure ResolvedMaterial where
  base_color : Vector3
  emissive : Vector3
  geometry_normal : Vector3
  shading_normal : Vector3
  metalness : ℝ
  roughness : ℝ
  single_sided : Bool

/-- `BrdfType` from brdf.rs. -/
inductive BrdfType where
  | Diffuse
  | Specular

/-- The `Brdf` trait object from brdf.rs, modelled as a structure of
functions.  `sample` also returns the advanced sampler. -/
structure Brdf where
  sample : BrdfType → Vector3 → ResolvedMaterial → UniformSampler →
    Option Vector3 × UniformSampler
  eval : Vector3 → Vector3 → ResolvedMaterial → Vector3
  pdf : Vector3 → Vector3 → ℝ
  probability : Vector3 → ResolvedMaterial → ℝ

/-- The `Brdf` trait's default `probability` (brdf.rs): constant `0.5`. -/
def Brdf.default_probability (_v : Vector3) (_material : ResolvedMaterial) : ℝ := 0.5

/-! ## material.rs: `Material` -/

/-- `Material` from material.rs (the `Arc` is dropped; sharing a material
means sharing the same value). -/
structure Material where
  alpha_mode : AlphaMode
  albedo_factor : Vector3
  albedo_texture : Option TextureSampler
  emitted_factor : Vector3
  emitted_texture : Option TextureSampler
  normal_texture : Option TextureSampler
  metalic : ℝ
  roughness : ℝ
  metalic_roughness_texture : Option TextureSampler
  single_sided : Bool
  brdf : Brdf

/-- `Material::sample_texture`. -/
def Material.sample_texture (factor : Vector3) (texture : Option TextureSampler)
    (uv : ℝ × ℝ) : ℝ × ℝ × ℝ × ℝ :=
  let color := match texture with
    | some tex => tex.sample uv
    | none => (1, 1, 1, 1)
  (color.1 * factor.x, color.2.1 * factor.y, color.2.2.1 * factor.z, color.2.2.2)

/-- `Material::discard`. -/
def Material.discard (m : Material) (uv : ℝ × ℝ) : Bool :=
  match m.alpha_mode with
  | AlphaMode.Opaque => false
  | AlphaMode.Mask alpha =>
      decide ((Material.sample_texture m.albedo_factor m.albedo_texture uv).2.2.2 ≤ alpha)
  | AlphaMode.Blend => false

/-- `Material::has_normal`. -/
def Material.has_normal (m : Material) : Bool := m.normal_texture.isSome

/-- `Material::base_color`. -/
def Material.base_color (m : Material) (uv : ℝ × ℝ) : Vector3 :=
  let color := Material.sample_texture m.albedo_factor m.albedo_texture uv
  ⟨color.1, color.2.1, color.2.2.1⟩

/-- `Material::emissive_color`. -/
def Material.emissive_color (m : Material) (uv : ℝ × ℝ) : Vector3 :=
  let color := Material.sample_texture m.emitted_factor m.emitted_texture uv
  ⟨color.1, color.2.1, color.2.2.1⟩

/-- `Material::normal`. -/
def Material.normal (m : Material) (uv : ℝ × ℝ) : Vector3 :=
  let c := Material.sample_texture Vector3.one m.normal_texture uv
  ⟨c.1 * 2 - 1, c.2.1 * 2 - 1, c.2.2.1 * 2 - 1⟩

/-- `Material::metalness`. -/
def Material.metalness (m : Material) (uv : ℝ × ℝ) : ℝ :=
  let c := Material.sample_texture Vector3.one m.metalic_roughness_texture uv
  m.metalic * c.1

/-- `Material::roughness_at` (`Material::roughness` in Rust; renamed because
the structure field already carries that name). -/
def Material.roughness_at (m : Material) (uv : ℝ × ℝ) : ℝ :=
  let c := Material.sample_texture Vector3.one m.metalic_roughness_texture uv
  m.roughness * c.2.1

/-- `Hit` from brdf.rs. -/
structure Hit where
  position : Vector3
  material : Material
  t : ℝ
  uv : ℝ × ℝ
  normal : Vector3
  tangent : Vector3
  bitangent : Vector3

/-- `Hit::resolve_material` from brdf.rs.  The tangent-frame transform
`btn * n` with `btn = from_cols(bitangent, tangent, normal)` is the linear
combination of the columns. -/
def Hit.resolve_material (h : Hit) : ResolvedMaterial :=
  let base_color := h.material.base_color h.uv
  let emissive := h.material.emissive_color h.uv
  let geometry_normal := h.normal
  let shading_normal :=
    if h.material.has_normal then
      let mat_norm := h.material.normal h.uv
      (h.bitangent.scale mat_norm.x + h.tangent.scale mat_norm.y +
        h.normal.scale mat_norm.z).unit
    else h.normal
  { base_color := base_color
    emissive := emissive
    geometry_normal := geometry_normal
    shading_normal := shading_normal
    metalness := h.material.metalness h.uv
    roughness := h.material.roughness_at h.uv
    single_sided := h.material.single_sided }

/-! ## brdf_lambert.rs -/

/-- `transform_to_world` from brdf_lambert.rs. -/
def transform_to_world (x y z : ℝ) (normal : Vector3) : Vector3 :=
  let inv_sqrt_3 : ℝ := 0.57735026
  let major_axis : Vector3 :=
    if |normal.x| < inv_sqrt_3 then ⟨1, 0, 0⟩
    else if |normal.y| < inv_sqrt_3 then ⟨0, 1, 0⟩
    else ⟨0, 0, 1⟩
  let u := normal.cross major_axis
  let v := normal.cross u
  let w := normal
  u.scale x + v.scale y + w.scale z

/-- `Lambertian::sample` from brdf_lambert.rs. -/
def Lambertian.sample (_type : BrdfType) (_wo : Vector3) (material : ResolvedMaterial)
    (sampler : UniformSampler) : Option Vector3 × UniformSampler :=
  let (rand, s1) := sampler.next_float
  let r := Real.sqrt rand
  let (u2, s2) := s1.next_float
  let theta := u2 * (2 * Real.pi)
  let x := r * Real.cos theta
  let y := r * Real.sin theta
  let z := Real.sqrt (1 - x * x - y * y)
  (some (transform_to_world x y z material.shading_normal).unit, s2)

/-- `Lambertian::eval` from brdf_lambert.rs. -/
def Lambertian.eval (wi : Vector3) (_wo : Vector3) (material : ResolvedMaterial) : Vector3 :=
  (material.base_color.scale (wi.dot material.shading_normal)).scale Real.pi

/-- `Lambertian::pdf` from brdf_lambert.rs. -/
def Lambertian.pdf (wi normal : Vector3) : ℝ := wi.dot normal * Real.pi

/-- The `Lambertian` BRDF as a trait object (uses the default
`probability`). -/
def Lambertian.brdf : Brdf :=
  ⟨Lambertian.sample, Lambertian.eval, Lambertian.pdf, Brdf.default_probability⟩

/-- `Dielectric::sample` from brdf_lambert.rs. -/
def Dielectric.sample (ref_index : ℝ) (_type : BrdfType) (wo : Vector3)
    (material : ResolvedMaterial) (sampler : UniformSampler) :
    Option Vector3 × UniformSampler :=
  let reflected := reflect wo material.shading_normal
  let wo_dot_normal := wo.dot material.shading_normal
  let outward_normal :=
    if 0 < wo_dot_normal then -material.shading_normal else material.shading_normal
  let ni_over_nt := if 0 < wo_dot_normal then ref_index else 1 / ref_index
  let cosine :=
    if 0 < wo_dot_normal then ref_index * wo_dot_normal / wo.length
    else -wo_dot_normal / wo.length
  match refract wo outward_normal ni_over_nt with
  | some refracted =>
      let reflect_prob := schlick cosine ref_index
      let (u, s1) := sampler.next_float
      if u < reflect_prob then (some reflected, s1) else (some refracted, s1)
  | none => (some reflected, sampler)

/-- `Dielectric::eval` from brdf_lambert.rs. -/
def Dielectric.eval (_wi _wo : Vector3) (_material : ResolvedMaterial) : Vector3 := ⟨1, 1, 1⟩

/-- `Dielectric::pdf` from brdf_lambert.rs. -/
def Dielectric.pdf (_wi _normal : Vector3) : ℝ := 1

/-- The `Dielectric` BRDF as a trait object. -/
def Dielectric.brdf (ref_index : ℝ) : Brdf :=
  ⟨Dielectric.sample ref_index, Dielectric.eval, Dielectric.pdf, Brdf.default_probability⟩

/-! ## microfacet.rs -/

/-- `BrdfData` from microfacet.rs. -/
structure BrdfData where
  specular_f0 : Vector3
  diffuse_reflectance : Vector3
  roughness : ℝ
  alpha : ℝ
  alpha_squared : ℝ
  f : Vector3
  v : Vector3
  n : Vector3
  h : Vector3
  l : Vector3
  n_dot_l : ℝ
  n_dot_v : ℝ
  l_dot_h : ℝ
  n_dot_h : ℝ
  v_dot_h : ℝ
  v_backfacing : Bool
  l_backfacing : Bool

/-- `prepare_brdf_data` from microfacet.rs. -/
def prepare_brdf_data (n l v : Vector3) (material : ResolvedMaterial) : BrdfData :=
  let h := (l + v).unit
  let n_dot_l0 := n.dot l
  let n_dot_v0 := n.dot v
  let v_backfacing := decide (n_dot_v0 ≤ 0)
  let l_backfacing := decide (n_dot_l0 ≤ 0)
  let n_dot_l := Min.min 1 (Max.max 0.00001 n_dot_l0)
  let n_dot_v := Min.min 1 (Max.max 0.00001 n_dot_v0)
  let l_dot_h := saturate (l.dot h)
  let n_dot_h := saturate (n.dot h)
  let v_dot_h := saturate (v.dot h)
  let specular_f0 := base_color_to_specular_f0 material.base_color material.metalness
  let diffuse_reflectance :=
    base_color_to_diffuse_reflectance material.base_color material.metalness
  let roughness := material.roughness
  let alpha := material.roughness * material.roughness
  let alpha_squared := alpha * alpha
  let f := eval_fresnel specular_f0 (to_v3 (shadowed_f90 specular_f0)) l_dot_h
  ⟨specular_f0, diffuse_reflectance, roughness, alpha, alpha_squared, f, v, n, h, l,
    n_dot_l, n_dot_v, l_dot_h, n_dot_h, v_dot_h, v_backfacing, l_backfacing⟩

/-- `sample_ggx_vndf` from microfacet.rs. -/
def sample_ggx_vndf (ve : Vector3) (alpha_2d : ℝ × ℝ) (u : ℝ × ℝ) : Vector3 :=
  let vh : Vector3 := (⟨alpha_2d.1 * ve.x, alpha_2d.2 * ve.y, ve.z⟩ : Vector3).unit
  let lensq := vh.x * vh.x + vh.y * vh.y
  let tt1 : Vector3 :=
    if 0 < lensq then (⟨-vh.y, vh.x, 0⟩ : Vector3).scale (1 / Real.sqrt lensq)
    else ⟨1, 0, 0⟩
  let tt2 := vh.cross tt1
  let r := Real.sqrt u.1
  let phi := TWO_PI * u.2
  let t1 := r * Real.cos phi
  let t2 := r * Real.sin phi
  let s := 0.5 * (1 + vh.z)
  let t2 := lerp_scalar (Real.sqrt (1 - t1 * t1)) t2 s
  let nh := vh.scale (Real.sqrt (Max.max 0 (1 - t1 * t1 - t2 * t2))) +
    tt1.scale t1 + tt2.scale t2
  (⟨alpha_2d.1 * nh.x, alpha_2d.2 * nh.y, Max.max 0 nh.z⟩ : Vector3).unit

/-- `smith_g1_ggx` from microfacet.rs. -/
def smith_g1_ggx (alpha_squared n_dot_s_squared : ℝ) : ℝ :=
  2 / (Real.sqrt (alpha_squared * (1 - n_dot_s_squared) + n_dot_s_squared) /
    n_dot_s_squared + 1)

/-- `smith_g2_over_g1_height_correlated` from microfacet.rs. -/
def smith_g2_over_g1_height_correlated (_alpha alpha_squared n_dot_l n_dot_v : ℝ) : ℝ :=
  let g1v := smith_g1_ggx alpha_squared (n_dot_v * n_dot_v)
  let g1l := smith_g1_ggx alpha_squared (n_dot_l * n_dot_l)
  g1l / (g1v + g1l - g1v * g1l)

/-- `specular_sample_weight_ggx_vndf` from microfacet.rs. -/
def specular_sample_weight_ggx_vndf (alpha alpha_squared n_dot_l n_dot_v _h_dot_l
    _n_dot_h : ℝ) : ℝ :=
  smith_g2_over_g1_height_correlated alpha alpha_squared n_dot_l n_dot_v

/-- `sample_specular_microfacet` from microfacet.rs. -/
def sample_specular_microfacet (v_local : Vector3) (alpha alpha_squared : ℝ)
    (specular_f0 : Vector3) (u : ℝ × ℝ) : Vector3 × Vector3 :=
  let h_local :=
    if alpha = 0 then (⟨0, 0, 1⟩ : Vector3) else sample_ggx_vndf v_local (alpha, alpha) u
  let l_local := reflect (-v_local) h_local
  let h_dot_l := Max.max 0.00001 (Min.min 1 (h_local.dot l_local))
  let n_local : Vector3 := ⟨0, 0, 1⟩
  let n_dot_l := Max.max 0.00001 (Min.min 1 (n_local.dot l_local))
  let n_dot_v := Max.max 0.00001 (Min.min 1 (n_local.dot v_local))
  let n_dot_h := Max.max 0.00001 (Min.min 1 (n_local.dot h_local))
  let f := eval_fresnel specular_f0 (to_v3 (shadowed_f90 specular_f0)) h_dot_l
  let weight := f.scale
    (specular_sample_weight_ggx_vndf alpha alpha_squared n_dot_l n_dot_v h_dot_l n_dot_h)
  (l_local, weight)

/-- `ggx_d` from microfacet.rs. -/
def ggx_d (alpha_squared n_dot_h : ℝ) : ℝ :=
  let b := (alpha_squared - 1) * n_dot_h * n_dot_h + 1
  alpha_squared / (Real.pi * b * b)

/-- `smith_g2_height_correlated_ggx_lagarde` from microfacet.rs. -/
def smith_g2_height_correlated_ggx_lagarde (alpha_squared n_dot_l n_dot_v : ℝ) : ℝ :=
  let a := n_dot_v * Real.sqrt (alpha_squared + n_dot_l * (n_dot_l - alpha_squared * n_dot_l))
  let b := n_dot_l * Real.sqrt (alpha_squared + n_dot_v * (n_dot_v - alpha_squared * n_dot_v))
  0.5 / (a + b)

/-- `eval_microfacet` from microfacet.rs. -/
def eval_microfacet (data : BrdfData) : Vector3 :=
  let d := ggx_d (Max.max 0.00001 data.alpha_squared) data.n_dot_h
  let g2 := smith_g2_height_correlated_ggx_lagarde data.alpha_squared data.n_dot_l data.n_dot_v
  data.f.scale (g2 * d * data.n_dot_l)

/-- `eval_lambertian` from microfacet.rs. -/
def eval_lambertian (data : BrdfData) : Vector3 :=
  data.diffuse_reflectance.scale (ONE_OVER_PI * data.n_dot_l)

/-! ## brdf_microfacet.rs -/

/-- `MicrofacetBrdf::sample` from brdf_microfacet.rs. -/
def MicrofacetBrdf.sample (brdf_type : BrdfType) (wo : Vector3)
    (material : ResolvedMaterial) (sampler : UniformSampler) :
    Option Vector3 × UniformSampler :=
  let v := -wo
  if material.shading_normal.dot v ≤ 0 then (none, sampler)
  else
    let q_rotation_to_z := get_rotation_to_z_axis material.shading_normal
    let v_local := rotate_point q_rotation_to_z v
    let n_local : Vector3 := ⟨0, 0, 1⟩
    let (ray_direction_local, sample_weight, sampler) :=
      match brdf_type with
      | BrdfType.Diffuse =>
          let ((ray_direction_local, _), s1) := sample_hemisphere sampler
          let data := prepare_brdf_data n_local ray_direction_local v_local material
          let sample_weight := data.diffuse_reflectance
          let (u1, s2) := s1.next_float
          let (u2, s3) := s2.next_float
          let h_specular := sample_ggx_vndf v_local (data.alpha, data.alpha) (u1, u2)
          let v_dot_h := Max.max 0.00001 (Min.min 1 (v_local.dot h_specular))
          let diff := Vector3.one -
            eval_fresnel data.specular_f0 (to_v3 (shadowed_f90 data.specular_f0)) v_dot_h
          (ray_direction_local, sample_weight.mul diff, s3)
      | BrdfType.Specular =>
          let data := prepare_brdf_data n_local (⟨0, 0, 1⟩ : Vector3) v_local material
          let (u1, s1) := sampler.next_float
          let (u2, s2) := s1.next_float
          let (l, w) := sample_specular_microfacet v_local data.alpha data.alpha_squared
            data.specular_f0 (u1, u2)
          (l, w, s2)
    if luminance sample_weight = 0 then (none, sampler)
    else
      let ray_direction :=
        (rotate_point (invert_rotation q_rotation_to_z) ray_direction_local).unit
      if material.geometry_normal.dot ray_direction ≤ 0 then (none, sampler)
      else (some ray_direction, sampler)

/-- `MicrofacetBrdf::eval` from brdf_microfacet.rs. -/
def MicrofacetBrdf.eval (wi wo : Vector3) (material : ResolvedMaterial) : Vector3 :=
  let n := material.shading_normal
  let data := prepare_brdf_data n wi (-wo) material
  if data.v_backfacing ∨ data.l_backfacing then Vector3.zero
  else
    let specular := eval_microfacet data
    let diffuse := eval_lambertian data
    (Vector3.one - data.f).mul diffuse + specular

/-- `MicrofacetBrdf::pdf` from brdf_microfacet.rs. -/
def MicrofacetBrdf.pdf (_wi _normal : Vector3) : ℝ := 1

/-- `MicrofacetBrdf::probability` from brdf_microfacet.rs. -/
def MicrofacetBrdf.probability (v : Vector3) (material : ResolvedMaterial) : ℝ :=
  let specular_f0 := luminance (base_color_to_specular_f0 material.base_color material.metalness)
  let diffuse_reflectance :=
    luminance (base_color_to_diffuse_reflectance material.base_color material.metalness)
  let fresnel := saturate (luminance (eval_fresnel (to_v3 specular_f0)
    (to_v3 (shadowed_f90 (to_v3 specular_f0))) (Max.max (v.dot material.shading_normal) 0)))
  let specular := fresnel
  let diffuse := diffuse_reflectance * (1 - fresnel)
  let p := specular / Max.max (specular + diffuse) 0.0001
  clamp p 0.1 0.9

/-- The `MicrofacetBrdf` as a trait object. -/
def MicrofacetBrdf.brdf : Brdf :=
  ⟨MicrofacetBrdf.sample, MicrofacetBrdf.eval, MicrofacetBrdf.pdf, MicrofacetBrdf.probability⟩

/-! ## env.rs -/

/-- The `Environment` strategy from env.rs: `Black` or `Gradient`. -/
inductive Env where
  | Black
  | Gradient (colors : Vector3 × Vector3)

/-- `Environment::color` (env.rs), dispatching on the variant. -/
def Env.color (e : Env) (ray : Ray) : Vector3 :=
  match e with
  | Env.Black => Vector3.zero
  | Env.Gradient colors =>
      let unit_direction := ray.direction.unit
      let t := 0.5 * (unit_direction.y + 1)
      colors.1.scale (1 - t) + colors.2.scale t

/-! ## light.rs -/

/-- `Directional` light from light.rs. -/
structure Directional where
  dir : Vector3
  color : Vector3
  intensity : ℝ

/-- `Directional::intensity_at`. -/
def Directional.intensity_at (d : Directional) (_position : Vector3) : Vector3 :=
  d.color.scale d.intensity

/-- `Point` light from light.rs. -/
structure Point where
  position : Vector3
  color : Vector3
  intensity : ℝ
  range : ℝ
  range_squared : ℝ

/-- `Point::intensity_at`. -/
def Point.intensity_at (p : Point) (position : Vector3) : Vector3 :=
  (p.color.scale p.intensity).scale
    (1 - smoothstep (p.range * 0.75) p.range (p.position - position).length)

/-- `Light` from light.rs. -/
inductive Light where
  | Directional (d : Directional)
  | Point (p : Point)

/-- `Light::direction_distance_from`.  The infinite distance of a
directional light (`f32::INFINITY`) is modelled as `none`. -/
def Light.direction_distance_from (l : Light) (position : Vector3) :
    Vector3 × Option ℝ :=
  match l with
  | Light.Directional d => (d.dir, none)
  | Light.Point p =>
      let dir := p.position - position
      (dir.unit, some dir.length)

/-- `Light::intensity_at`. -/
def Light.intensity_at (l : Light) (position : Vector3) : Vector3 :=
  match l with
  | Light.Directional d => d.intensity_at position
  | Light.Point p => p.intensity_at position

/-! ## mesh.rs / scene.rs

The k-d trees come from the external `kdtree_ray` crate, which is not part
of this repository.  Modelled from the spec: §4.3 only requires that a hit
query visit every candidate whose AABB meets the ray (conservative
over-inclusion is explicitly allowed, order is unspecified), so a `KDtree`
is modelled as the list of its items and `intersect` returns all of them —
the maximally conservative instantiation.  Order-independence is expressed
by quantifying over permutations of the candidate lists. -/

/-- `Sphere` from math.rs. -/
structure Sphere where
  center : Vector3
  radius : ℝ
  material : Material

/-- `Mesh` from mesh.rs: AABB, material, and its (kd-tree of) triangles. -/
structure Mesh where
  aabb : Vector3 × Vector3
  material : Material
  kd : List Triangle

/-- `Scene` from scene.rs. -/
structure Scene where
  kd : List Mesh
  lights : List Light
  spheres : List Sphere
  env : Env

/-- `Scene::environment`. -/
def Scene.environment (s : Scene) (ray : Ray) : Vector3 := s.env.color ray

/-- The `Hit` record built by `Scene::hit_triangles` from an accepted
triangle intersection. -/
def mkHit (ray : Ray) (material : Material) (tr_int : TriangleIntersection) : Hit :=
  { position := ray.point_at tr_int.t
    material := material
    t := tr_int.t
    uv := tr_int.uv
    normal := tr_int.normal
    tangent := tr_int.tangent
    bitangent := tr_int.bitangent }

/-- One step of the `Scene::hit_triangles` inner loop: fold the intersection
with `triangle` into the current best `result`.  The `f32::INFINITY`
sentinel used for `prev_distance` when there is no current best is modelled
by the `none` case (any finite `t` beats it). -/
def hitTriStep (ray : Ray) (t_min t_max : ℝ) (material : Material)
    (result : Option Hit) (triangle : Triangle) : Option Hit :=
  match ray_triangle_intersection ray triangle material.single_sided t_min t_max, result with
  | some tr_int, some prev =>
      if tr_int.t < prev.t then some (mkHit ray material tr_int) else some prev
  | some tr_int, none => some (mkHit ray material tr_int)
  | none, r => r

/-- `Scene::hit_triangles` from scene.rs: visit the candidate meshes, then
the candidate triangles of each, tracking the best `t`. -/
def Scene.hit_triangles (s : Scene) (ray : Ray) (t_min t_max : ℝ) : Option Hit :=
  s.kd.foldl
    (fun result mesh => mesh.kd.foldl (hitTriStep ray t_min t_max mesh.material) result)
    none

/-- The `loop` of `Scene::hit` (scene.rs) with an explicit iteration budget:
`none` means the budget was exhausted (the Rust loop would still be
running), `some r` means the loop finished with result `r`.  `dir` is the
direction of the original ray, which the Rust code reuses on restart. -/
def Scene.hitAux (s : Scene) (dir : Vector3) :
    ℕ → Ray → ℝ → ℝ → Option (Option Hit)
  | 0, _, _, _ => none
  | fuel + 1, current_ray, t_min, current_t_max =>
      match s.hit_triangles current_ray t_min current_t_max with
      | some h =>
          if h.material.discard h.uv then
            s.hitAux dir fuel ⟨h.position, dir⟩ t_min (current_t_max - h.t)
          else some (some h)
      | none => some none

/-- An iteration budget sufficient for the alpha-mask loop whenever
`0 < t_min` (each discarded hit then shrinks `t_max` by at least `t_min`). -/
def hitFuel (t_min t_max : ℝ) : ℕ := ⌈t_max / t_min⌉₊ + 1

/-- `Scene::hit` from scene.rs.  A diverging Rust loop (possible only when
`t_min ≤ 0`) is mapped to `none` at budget exhaustion. -/
def Scene.hit (s : Scene) (ray : Ray) (t_min t_max : ℝ) : Option Hit :=
  (s.hitAux ray.direction (hitFuel t_min t_max) ray t_min t_max).getD none

/-! ## pathtracer.rs -/

/-- `TracerSettings` from pathtracer.rs. -/
structure TracerSettings where
  max_scatter_depth : ℕ
  shadow_rays : Bool
  random_light_sample : Bool
  t_min : ℝ
  t_max : ℝ
  min_bounces : ℕ

/-- The `Camera` trait object from camera.rs: `ray(x, y, sampler)` (the
sampler is advanced through the call). -/
structure Camera where
  ray : ℝ → ℝ → UniformSampler → Ray × UniformSampler

/-- `Tracer` from pathtracer.rs. -/
structure Tracer where
  settings : TracerSettings
  camera : Camera
  scene : Scene

/-- `Tracer::trace_light` from pathtracer.rs: direction to the light if it
is visible from `position`. -/
def Tracer.trace_light (t : Tracer) (position normal : Vector3) (light : Light) :
    Option Vector3 :=
  match light with
  | Light.Point point =>
      if point.range_squared < (point.position - position).squared_length then none
      else
        let (direction, distance) := light.direction_distance_from position
        if normal.dot direction ≤ 0 then none
        else
          match t.scene.hit ⟨position, direction⟩ t.settings.t_min t.settings.t_max,
              distance with
          | some h, some d => if d ≤ h.t then some direction else none
          | some _, none => none
          | none, _ => some direction
  | _ =>
      let (direction, distance) := light.direction_distance_from position
      if normal.dot direction ≤ 0 then none
      else
        match t.scene.hit ⟨position, direction⟩ t.settings.t_min t.settings.t_max,
            distance with
        | some h, some d => if d ≤ h.t then some direction else none
        | some _, none => none
        | none, _ => some direction

/-- `Tracer::sample_light` from pathtracer.rs. -/
def Tracer.sample_light (t : Tracer) (light : Light) (position : Vector3)
    (material : ResolvedMaterial) (brdf : Brdf) (wo : Vector3) : Vector3 :=
  match t.trace_light position material.shading_normal light with
  | some light_dir =>
      ((brdf.eval light_dir wo material).mul (light.intensity_at position)).divS
        (brdf.pdf light_dir material.shading_normal)
  | none => Vector3.zero

/-- `Tracer::sample_lights` from pathtracer.rs.  The (never reached)
out-of-range index of the random-light branch, which would panic in Rust,
contributes zero. -/
def Tracer.sample_lights (t : Tracer) (position : Vector3)
    (material : ResolvedMaterial) (brdf : Brdf) (sampler : UniformSampler)
    (wo : Vector3) : Vector3 × UniformSampler :=
  let num_lights := t.scene.lights.length
  if num_lights = 0 then (Vector3.zero, sampler)
  else if t.settings.random_light_sample then
    let (u, s1) := sampler.next_float
    let random_light := toU32 (u * (num_lights : ℝ))
    match t.scene.lights.get? random_light with
    | some light =>
        ((t.sample_light light position material brdf wo).divS (num_lights : ℝ), s1)
    | none => (Vector3.zero, s1)
  else
    let color := t.scene.lights.foldl
      (fun color light => color + t.sample_light light position material brdf wo)
      Vector3.zero
    (color.divS (num_lights : ℝ), sampler)

/-- The `while` loop of `Tracer::trace` (pathtracer.rs).  `fuel` is the
number of remaining iterations (`max_scatter_depth - bounce`, so the loop
guard `bounce < max_scatter_depth` becomes `0 < fuel`); `bounce` is the
Rust `bounce` counter before the iteration's increment.  Returns the final
`(color, throughput)`. -/
def Tracer.traceLoop (t : Tracer) :
    ℕ → ℕ → Ray → Vector3 → Vector3 → UniformSampler → Vector3 × Vector3
  | 0, _, _, color, throughput, _ => (color, throughput)
  | fuel + 1, bounce0, ray, color, throughput, sampler =>
      let bounce := bounce0 + 1
      match t.scene.hit ray t.settings.t_min t.settings.t_max with
      | none => (color + throughput.mul (t.scene.environment ray), throughput)
      | some hit =>
          let material := hit.resolve_material
          let brdf := hit.material.brdf
          let v := -ray.direction
          let color := color + throughput.mul material.emissive
          let (color, sampler) :=
            if t.settings.shadow_rays then
              let (sl, s1) := t.sample_lights hit.position material brdf sampler
                ray.direction
              (color + throughput.mul sl, s1)
            else (color, sampler)
          if bounce = t.settings.max_scatter_depth then (color, throughput)
          else
            let next := fun (throughput : Vector3) (sampler : UniformSampler) =>
              let (brdf_type, throughput, sampler) :=
                if material.metalness = 1 ∧ material.roughness = 0 then
                  (BrdfType.Specular, throughput, sampler)
                else
                  let prob := brdf.probability v material
                  let (u, s2) := sampler.next_float
                  if u < prob then (BrdfType.Specular, throughput.divS prob, s2)
                  else (BrdfType.Diffuse, throughput.divS (1 - prob), s2)
              match brdf.sample brdf_type ray.direction material sampler with
              | (none, _) => (color, throughput)
              | (some wi, s3) =>
                  let pdf := brdf.pdf wi material.shading_normal
                  let mat_color := brdf.eval wi ray.direction material
                  let throughput := (throughput.mul mat_color).divS pdf
                  t.traceLoop fuel bounce ⟨hit.position, wi⟩ color throughput s3
            if t.settings.min_bounces < bounce then
              let prob := Min.min (luminance throughput) 0.95
              let (u, s1) := sampler.next_float
              if prob < u then (color, throughput)
              else next (throughput.divS prob) s1
            else next throughput sampler

/-- `Tracer::trace` from pathtracer.rs.  The thread-local sampler created by
`UniformSampler::new()` is passed in as the stream of its draws. -/
def Tracer.trace (t : Tracer) (x y : ℝ) (sampler : UniformSampler) : Vector3 :=
  let (ray, sampler) := t.camera.ray x y sampler
  let (color, throughput) :=
    t.traceLoop t.settings.max_scatter_depth 0 ray Vector3.zero Vector3.one sampler
  match t.settings.max_scatter_depth with
  | 1 => color + throughput
  | _ => color

/-! ## Derived notions used to state the claims -/

/-- The flattened list of `(material, triangle)` candidates visited by
`Scene::hit_triangles`, in visiting order: meshes in kd order, then each
mesh's triangles. -/
def Scene.candidates (s : Scene) : List (Material × Triangle) :=
  s.kd.flatMap (fun mesh => mesh.kd.map (fun tri => (mesh.material, tri)))

/-- `Scene::hit_triangles` as a single fold over the flattened candidate
list. -/
def hitList (ray : Ray) (t_min t_max : ℝ) (l : List (Material × Triangle)) : Option Hit :=
  l.foldl (fun r c => hitTriStep ray t_min t_max c.1 r c.2) none

/-- All hits produced by the candidates a query intersects within
`[t_min, t_max]`, in visiting order. -/
def candHits (ray : Ray) (t_min t_max : ℝ) (l : List (Material × Triangle)) : List Hit :=
  l.filterMap (fun c =>
    (ray_triangle_intersection ray c.2 c.1.single_sided t_min t_max).map (mkHit ray c.1))

/-- The selection probability formula exactly as the spec states it for
claim C6: `clamp(specular/(specular+diffuse), 0.1, 0.9)` with **no**
`max(·, 0.0001)` guard on the denominator (compare
`MicrofacetBrdf.probability`). -/
def MicrofacetBrdf.probability_spec (v : Vector3) (material : ResolvedMaterial) : ℝ :=
  let specular_f0 := luminance (base_color_to_specular_f0 material.base_color material.metalness)
  let diffuse_reflectance :=
    luminance (base_color_to_diffuse_reflectance material.base_color material.metalness)
  let fresnel := saturate (luminance (eval_fresnel (to_v3 specular_f0)
    (to_v3 (shadowed_f90 (to_v3 specular_f0))) (Max.max (v.dot material.shading_normal) 0)))
  let specular := fresnel
  let diffuse := diffuse_reflectance * (1 - fresnel)
  clamp (specular / (specular + diffuse)) 0.1 0.9

/-! ## Concrete instances used by witnesses and counterexamples -/

/-- A plain opaque Lambertian material with no textures. -/
def matOpaque : Material :=
  { alpha_mode := AlphaMode.Opaque
    albedo_factor := Vector3.one
    albedo_texture := none
    emitted_factor := Vector3.zero
    emitted_texture := none
    normal_texture := none
    metalic := 0
    roughness := 1
    metalic_roughness_texture := none
    single_sided := false
    brdf := Lambertian.brdf }

/-- An alpha-mask material whose cutoff `1` discards every hit (without a
texture the sampled alpha is exactly `1 ≤ 1`). -/
def matMaskAll : Material :=
  { matOpaque with alpha_mode := AlphaMode.Mask 1 }

/-- The axis-aligned test triangle `{(0,0,d), (1,0,d), (0,1,d)}` in the
plane `z = d`, with UVs `(0,0), (1,0), (0,1)`. -/
def triAt (d : ℝ) : Triangle :=
  ⟨![⟨⟨0, 0, d⟩, (0, 0)⟩, ⟨⟨1, 0, d⟩, (1, 0)⟩, ⟨⟨0, 1, d⟩, (0, 1)⟩]⟩

/-- A one-material mesh over the given triangles (the AABB is irrelevant to
queries in this model). -/
def meshOf (m : Material) (ts : List Triangle) : Mesh :=
  ⟨(Vector3.zero, Vector3.zero), m, ts⟩

/-- Test ray from `(0.25, 0.25, 0)` straight down the `-z` axis; it meets
`triAt d` at parameter `t = -d`. -/
def rayStd : Ray := ⟨⟨0.25, 0.25, 0⟩, ⟨0, 0, -1⟩⟩

/-- A scene with no meshes and no lights and the black environment. -/
def sceneEmpty : Scene := ⟨[], [], [], Env.Black⟩

/-- Two disjoint opaque triangles hit at `t = 2` and `t = 5`, in this
insertion order. -/
def sceneT2T5a : Scene :=
  ⟨[meshOf matOpaque [triAt (-2)], meshOf matOpaque [triAt (-5)]], [], [], Env.Black⟩

/-- The same two triangles in the opposite insertion order. -/
def sceneT2T5b : Scene :=
  ⟨[meshOf matOpaque [triAt (-5)], meshOf matOpaque [triAt (-2)]], [], [], Env.Black⟩

/-- A single opaque triangle hit at `t = 2`. -/
def sceneT2 : Scene := ⟨[meshOf matOpaque [triAt (-2)]], [], [], Env.Black⟩

/-- Counterexample scene for C7: a discard-everything triangle behind the
ray origin at `t = -6` and an opaque one at `t = -11`. -/
def sceneC7 : Scene :=
  ⟨[meshOf matMaskAll [triAt 6], meshOf matOpaque [triAt 11]], [], [], Env.Black⟩

/-- A camera that ignores its inputs and always shoots `rayStd`. -/
def cameraFixed : Camera := ⟨fun _ _ s => (rayStd, s)⟩

/-- Tracer settings with `max_scatter_depth = 1`. -/
def settingsDepth1 : TracerSettings := ⟨1, false, false, 1, 100, 0⟩

/-- A depth-1 tracer over the empty scene with the black environment. -/
def tracerDepth1 : Tracer := ⟨settingsDepth1, cameraFixed, sceneEmpty⟩

/-- The all-zeros sampler stream. -/
def samplerZero : UniformSampler := ⟨fun _ => 0, 0⟩

/-- A unit vector inside the `z < -0.99999` special-case cone of
`get_rotation_to_z_axis` whose `x` component exceeds the `1e-5`
tolerance. -/
def nSpecial : Vector3 := ⟨1 / 1000, 0, -Real.sqrt (999999 / 1000000)⟩

/-- Resolved material with a tiny base color (counterexample input for
C6). -/
def matTiny : ResolvedMaterial :=
  { base_color := to_v3 (1 / 10000000000)
    emissive := Vector3.zero
    geometry_normal := ⟨0, 0, 1⟩
    shading_normal := ⟨0, 0, 1⟩
    metalness := 1
    roughness := 0
    single_sided := false }

/-- Point light at the origin with unit color/intensity and range 1. -/
def lightUnit : Point := ⟨Vector3.zero, Vector3.one, 1, 1, 1⟩

/-- Resolved material used in C8's witness. -/
def matPlain : ResolvedMaterial :=
  { base_color := Vector3.one
    emissive := Vector3.zero
    geometry_normal := ⟨0, 0, 1⟩
    shading_normal := ⟨0, 0, 1⟩
    metalness := 0
    roughness := 1
    single_sided := false }

/-- A tracer over the empty scene (used by C8's and C10's witnesses). -/
def tracerEmpty : Tracer := ⟨⟨2, true, false, 1, 100, 0⟩, cameraFixed, sceneEmpty⟩

/-! # Theorems -/

attribute [ext] Vector3

/-- Componentwise form of vector addition. -/
theorem Vector3.add_def (a b : Vector3) :
    a + b = ⟨a.x + b.x, a.y + b.y, a.z + b.z⟩ := rfl

/-- Componentwise form of vector subtraction. -/
theorem Vector3.sub_def (a b : Vector3) :
    a - b = ⟨a.x - b.x, a.y - b.y, a.z - b.z⟩ := rfl

/-- Componentwise form of vector negation. -/
theorem Vector3.neg_def (a : Vector3) : -a = ⟨-a.x, -a.y, -a.z⟩ := rfl

/-- Scaling by zero gives the zero vector. -/
theorem Vector3.scale_zero (v : Vector3) : v.scale 0 = Vector3.zero := by
  simp [Vector3.scale, Vector3.zero]

/-- Scaling by one is the identity. -/
theorem Vector3.scale_one (v : Vector3) : v.scale 1 = v := by
  simp [Vector3.scale]

/-- Adding the zero vector on the right. -/
theorem Vector3.add_zero' (v : Vector3) : v + Vector3.zero = v := by
  ext <;> simp [Vector3.add_def, Vector3.zero]

/-- Componentwise product with the zero vector. -/
theorem Vector3.mul_zero' (v : Vector3) : v.mul Vector3.zero = Vector3.zero := by
  simp [Vector3.mul, Vector3.zero]

/-! ## C9: the running average -/

/-- After `n` frames the sample counter is `n`. -/
theorem iterFrames_spp (n : ℕ) : (iterFrames n).spp = n := by
  induction n with
  | zero => rfl
  | succ k ih => simp [iterFrames, Average.next_frame, ih]

/-- Closed form of the accumulator state after `n + 1` frames. -/
theorem iterFrames_succ (n : ℕ) :
    iterFrames (n + 1) =
      ⟨(n : ℤ) + 1, (n : ℝ) / ((n : ℝ) + 1), 1 / ((n : ℝ) + 1)⟩ := by
  have h := iterFrames_spp n
  show (iterFrames n).next_frame = _
  rw [Average.next_frame, h]
  norm_num

/-- Claim C9: after the N-th call to `Average::next_frame`,
`Average::average(prev, new)` computes `new·(1/N) + prev·((N−1)/N)`, with
the `prev` coefficient taken as exactly 0 when `N = 1`; consequently,
feeding `N` successive samples all equal to the same value `v` yields a
running mean exactly equal to `v` for every `N ≥ 1`. -/
theorem C9_running_average (N : ℕ) (hN : 1 ≤ N) (prev new v m0 : Vector3) :
    (iterFrames N).average prev new =
      new.scale (1 / (N : ℝ)) +
        prev.scale (if N = 1 then 0 else ((N : ℝ) - 1) / (N : ℝ))
    ∧ meanAfter v m0 N = v := by
  constructor
  · rcases N with _ | _ | n
    · exact absurd hN (by norm_num)
    · rw [show (1 : ℕ) = 0 + 1 from rfl, iterFrames_succ, Average.average]
      norm_num
    · rw [show n + 1 + 1 = (n + 1) + 1 from rfl, iterFrames_succ, Average.average]
      have h1 : ¬(((n : ℤ) + 1) + 1 = 1) := by omega
      have h2 : ¬(n + 1 + 1 = 1) := by omega
      simp only [h1, h2, if_false]
      push_cast
      ring_nf
      rw [if_neg (show ¬((2 : ℤ) + (n : ℤ) = 1) from by omega)]
  · induction N, hN using Nat.le_induction with
    | base =>
        show (iterFrames (0 + 1)).average m0 v = v
        rw [iterFrames_succ, Average.average]
        norm_num [Vector3.scale_one, Vector3.scale_zero, Vector3.add_zero']
    | succ n hn ih =>
        show (iterFrames (n + 1)).average (meanAfter v m0 n) v = v
        rw [ih, iterFrames_succ, Average.average]
        have h1 : ¬((n : ℤ) + 1 = 1) := by omega
        simp only [h1, if_false]
        have hn1 : (n : ℝ) + 1 ≠ 0 := by positivity
        ext <;> ·
          simp only [Vector3.add_def, Vector3.scale]
          field_simp
          ring

/-- Witness for C9 at `N = 3`. -/
theorem C9_witness :
    1 ≤ 3
    ∧ (iterFrames 3).average ⟨7, 7, 7⟩ ⟨1, 2, 3⟩ =
        (⟨1, 2, 3⟩ : Vector3).scale (1 / (3 : ℝ)) +
          (⟨7, 7, 7⟩ : Vector3).scale (if 3 = 1 then 0 else ((3 : ℝ) - 1) / (3 : ℝ))
    ∧ meanAfter ⟨1, 2, 3⟩ ⟨7, 7, 7⟩ 3 = ⟨1, 2, 3⟩ := by
  have h := C9_running_average 3 (by norm_num) ⟨7, 7, 7⟩ ⟨1, 2, 3⟩ ⟨1, 2, 3⟩ ⟨7, 7, 7⟩
  exact ⟨by norm_num, h.1, h.2⟩

/-! ## C10: no lights means a zero light sample -/

/-- Claim C10: if the scene's light list is empty, `Tracer::sample_lights`
returns the zero vector before any per-light sampling or division by the
light count takes place (the sampler is not even advanced), so enabling
shadow rays on a scene with no lights never divides by zero and never
injects NaN into the traced color. -/
theorem C10_sample_lights_empty (t : Tracer) (position : Vector3)
    (material : ResolvedMaterial) (brdf : Brdf) (sampler : UniformSampler)
    (wo : Vector3) (hl : t.scene.lights = []) :
    t.sample_lights position material brdf sampler wo = (Vector3.zero, sampler) := by
  simp [Tracer.sample_lights, hl]

/-- Witness for C10 on a concrete empty-scene tracer. -/
theorem C10_witness :
    tracerEmpty.scene.lights = []
    ∧ tracerEmpty.sample_lights Vector3.zero matPlain Lambertian.brdf samplerZero
        Vector3.zero = (Vector3.zero, samplerZero) :=
  ⟨rfl, C10_sample_lights_empty tracerEmpty Vector3.zero matPlain Lambertian.brdf
    samplerZero Vector3.zero rfl⟩

/-! ## C4: the Lambertian eval/pdf convention -/

/-- Claim C4: for every incident direction `wi`, outgoing direction `wo`,
resolved material `m` and normal `n`, `Lambertian::eval(wi, wo, m)` equals
`m.base_color · (wi · m.shading_normal) · π` and `Lambertian::pdf(wi, n)`
equals `(wi · n) · π`; consequently, taking `n = m.shading_normal` (and the
cosine non-degenerate), eval divided by pdf equals `m.base_color` — the π
and cosine factors cancel in the tracer's throughput update. -/
theorem C4_lambertian_eval_pdf (wi wo n : Vector3) (m : ResolvedMaterial)
    (hdot : wi.dot m.shading_normal ≠ 0) :
    Lambertian.eval wi wo m = m.base_color.scale (wi.dot m.shading_normal * Real.pi)
    ∧ Lambertian.pdf wi n = wi.dot n * Real.pi
    ∧ (Lambertian.eval wi wo m).divS (Lambertian.pdf wi m.shading_normal) =
        m.base_color := by
  refine ⟨by ext <;> simp [Lambertian.eval, Vector3.scale] <;> ring, rfl, ?_⟩
  have hpi := Real.pi_ne_zero
  ext <;> ·
    simp only [Lambertian.eval, Lambertian.pdf, Vector3.divS, Vector3.scale]
    field_simp
    ring

/-- Witness for C4 with `wi = n = (0,0,1)`. -/
theorem C4_witness :
    (⟨0, 0, 1⟩ : Vector3).dot matPlain.shading_normal ≠ 0
    ∧ (Lambertian.eval ⟨0, 0, 1⟩ ⟨0, 0, -1⟩ matPlain).divS
        (Lambertian.pdf ⟨0, 0, 1⟩ matPlain.shading_normal) = matPlain.base_color := by
  have hdot : (⟨0, 0, 1⟩ : Vector3).dot matPlain.shading_normal ≠ 0 := by
    norm_num [Vector3.dot, matPlain]
  exact ⟨hdot, (C4_lambertian_eval_pdf ⟨0, 0, 1⟩ ⟨0, 0, -1⟩ ⟨0, 0, 1⟩ matPlain hdot).2.2⟩

/-! ## C6: the specular-selection probability -/

/-- `clamp` stays above its lower bound. -/
theorem clamp_lower (v lo hi : ℝ) : lo ≤ clamp v lo hi := le_max_right _ _

/-- `clamp` stays below its upper bound when the bounds are ordered. -/
theorem clamp_upper (v lo hi : ℝ) (h : lo ≤ hi) : clamp v lo hi ≤ hi :=
  max_le (min_le_right _ _) h

/-- Claim C6 (amended): `MicrofacetBrdf::probability(v, m)` equals
`clamp(specular / max(specular + diffuse, 0.0001), 0.1, 0.9)` — the code
guards the denominator with `max(·, 0.0001)`, which the claim's formula
omits — where `specular` is the (saturated) luminance of the Schlick
Fresnel term at `N·V` and `diffuse` is
`luminance(diffuse_reflectance)·(1 − specular)`; in particular the returned
value always lies in the interval `[0.1, 0.9]`. -/
theorem C6_probability_bounds (v : Vector3) (m : ResolvedMaterial) :
    (MicrofacetBrdf.probability v m =
      (let specular := saturate (luminance (eval_fresnel
          (to_v3 (luminance (base_color_to_specular_f0 m.base_color m.metalness)))
          (to_v3 (shadowed_f90
            (to_v3 (luminance (base_color_to_specular_f0 m.base_color m.metalness)))))
          (Max.max (v.dot m.shading_normal) 0)))
       let diffuse :=
          luminance (base_color_to_diffuse_reflectance m.base_color m.metalness) *
            (1 - specular)
       clamp (specular / Max.max (specular + diffuse) 0.0001) 0.1 0.9))
    ∧ 0.1 ≤ MicrofacetBrdf.probability v m
    ∧ MicrofacetBrdf.probability v m ≤ 0.9 := by
  refine ⟨rfl, ?_, ?_⟩
  · exact clamp_lower _ _ _
  · exact clamp_upper _ _ _ (by norm_num)

/-- Counterexample for C6 as stated: for a tiny base color the
`max(·, 0.0001)` denominator guard changes the result — the code returns
`0.1` where the claim's ungarded formula gives `0.9`. -/
theorem C6_counterexample :
    MicrofacetBrdf.probability ⟨0, 0, -1⟩ matTiny = 0.1
    ∧ MicrofacetBrdf.probability_spec ⟨0, 0, -1⟩ matTiny = 0.9
    ∧ MicrofacetBrdf.probability ⟨0, 0, -1⟩ matTiny ≠
        MicrofacetBrdf.probability_spec ⟨0, 0, -1⟩ matTiny := by
  have h1 : MicrofacetBrdf.probability ⟨0, 0, -1⟩ matTiny = 0.1 := by
    simp only [MicrofacetBrdf.probability, matTiny, base_color_to_specular_f0,
      base_color_to_diffuse_reflectance, lerp, lerp_scalar, MIN_DIELECTRICS_F0_VEC,
      MIN_DIELECTRICS_F0, to_v3, shadowed_f90, eval_fresnel, saturate, clamp,
      luminance, LUMINANCE, Vector3.dot, Vector3.scale, Vector3.add_def,
      Vector3.sub_def, max_def, min_def]
    norm_num
  have h2 : MicrofacetBrdf.probability_spec ⟨0, 0, -1⟩ matTiny = 0.9 := by
    simp only [MicrofacetBrdf.probability_spec, matTiny, base_color_to_specular_f0,
      base_color_to_diffuse_reflectance, lerp, lerp_scalar, MIN_DIELECTRICS_F0_VEC,
      MIN_DIELECTRICS_F0, to_v3, shadowed_f90, eval_fresnel, saturate, clamp,
      luminance, LUMINANCE, Vector3.dot, Vector3.scale, Vector3.add_def,
      Vector3.sub_def, max_def, min_def]
    norm_num
  exact ⟨h1, h2, by rw [h1, h2]; norm_num⟩

/-! ## C8: point-light range handling -/

/-- Claim C8: for every point light and shaded position `p`, if the squared
distance `|light.position − p|²` exceeds `range²` (the `range_squared`
field) then the next-event-estimation contribution sampled for that light
is the zero vector and the shadow ray is not even cast (`trace_light`
short-circuits to `none`); and `Point::intensity_at(p)` equals
`color · intensity · (1 − smoothstep(0.75·range, range, d))` with `d` the
distance from the light to `p`, which is zero whenever `d ≥ range` (for a
positive range; `range = 0` relies on IEEE `inf`/`NaN` clamping outside
this real-number model). -/
theorem C8_point_light (t : Tracer) (pt : Point) (p : Vector3)
    (m : ResolvedMaterial) (brdf : Brdf) (wo : Vector3) :
    (pt.range_squared < (pt.position - p).squared_length →
      t.trace_light p m.shading_normal (Light.Point pt) = none
      ∧ t.sample_light (Light.Point pt) p m brdf wo = Vector3.zero)
    ∧ pt.intensity_at p = (pt.color.scale pt.intensity).scale
        (1 - smoothstep (pt.range * 0.75) pt.range (pt.position - p).length)
    ∧ (0 < pt.range → pt.range ≤ (pt.position - p).length →
        pt.intensity_at p = Vector3.zero) := by
  refine ⟨fun hsq => ?_, rfl, fun hr hd => ?_⟩
  · have hnone : t.trace_light p m.shading_normal (Light.Point pt) = none := by
      rw [Tracer.trace_light, if_pos hsq]
    exact ⟨hnone, by rw [Tracer.sample_light, hnone]⟩
  · have hquot : 1 ≤ ((pt.position - p).length - pt.range * 0.75) /
        (pt.range - pt.range * 0.75) := by
      rw [le_div_iff₀ (by linarith)]
      linarith
    have hsm : smoothstep (pt.range * 0.75) pt.range (pt.position - p).length = 1 := by
      rw [smoothstep, clamp]
      rw [min_eq_right hquot, max_eq_left (by norm_num)]
      norm_num
    rw [Point.intensity_at, hsm]
    norm_num [Vector3.scale_zero]

/-- Witness for C8: unit-range light at the origin, shaded point at
distance 2. -/
theorem C8_witness :
    lightUnit.range_squared <
      (lightUnit.position - ⟨2, 0, 0⟩).squared_length
    ∧ tracerEmpty.trace_light ⟨2, 0, 0⟩ matPlain.shading_normal
        (Light.Point lightUnit) = none
    ∧ tracerEmpty.sample_light (Light.Point lightUnit) ⟨2, 0, 0⟩ matPlain
        Lambertian.brdf ⟨0, 0, 1⟩ = Vector3.zero
    ∧ 0 < lightUnit.range
    ∧ lightUnit.range ≤ (lightUnit.position - ⟨2, 0, 0⟩).length
    ∧ lightUnit.intensity_at ⟨2, 0, 0⟩ = Vector3.zero := by
  have h := C8_point_light tracerEmpty lightUnit ⟨2, 0, 0⟩ matPlain
    Lambertian.brdf ⟨0, 0, 1⟩
  have hsq : lightUnit.range_squared <
      (lightUnit.position - (⟨2, 0, 0⟩ : Vector3)).squared_length := by
    norm_num [lightUnit, Vector3.zero, Vector3.sub_def, Vector3.squared_length]
  have hlen : (lightUnit.position - (⟨2, 0, 0⟩ : Vector3)).length = 2 := by
    rw [Vector3.length]
    norm_num [lightUnit, Vector3.zero, Vector3.sub_def, Vector3.squared_length]
    rw [show (4 : ℝ) = 2 ^ 2 by norm_num, Real.sqrt_sq (by norm_num)]
  have hr : (0 : ℝ) < lightUnit.range := by norm_num [lightUnit]
  have hd : lightUnit.range ≤ (lightUnit.position - (⟨2, 0, 0⟩ : Vector3)).length := by
    rw [hlen]; norm_num [lightUnit]
  exact ⟨hsq, (h.1 hsq).1, (h.1 hsq).2, hr, hd, h.2.2 hr hd⟩

/-! ## C5: aligning rotations round-trip -/

/-- Claim C5 (amended): for every unit vector `n` with `n.z ≥ −0.99999`
(i.e. outside the 180°-rotation special case), rotating `(0,0,1)` by
`invert_rotation(get_rotation_to_z_axis(n))` via `rotate_point` yields
exactly `n`, hence a vector within tolerance 1e−5 of `n` in each
component.  In the special case `n.z < −0.99999` the round trip returns
exactly `(0,0,−1)`, which can differ from `n.x`/`n.y` by more than the
tolerance (see the counterexample). -/
theorem C5_rotation_roundtrip (n : Vector3) (hunit : n.squared_length = 1)
    (hz : -0.99999 ≤ n.z) :
    rotate_point (invert_rotation (get_rotation_to_z_axis n)) ⟨0, 0, 1⟩ = n
    ∧ |(rotate_point (invert_rotation (get_rotation_to_z_axis n)) ⟨0, 0, 1⟩).x - n.x|
        ≤ 0.00001
    ∧ |(rotate_point (invert_rotation (get_rotation_to_z_axis n)) ⟨0, 0, 1⟩).y - n.y|
        ≤ 0.00001
    ∧ |(rotate_point (invert_rotation (get_rotation_to_z_axis n)) ⟨0, 0, 1⟩).z - n.z|
        ≤ 0.00001 := by
  have hxyz : n.x * n.x + n.y * n.y + n.z * n.z = 1 := by
    simpa [Vector3.squared_length] using hunit
  have hA : (0 : ℝ) < 1 + n.z := by linarith
  have key : rotate_point (invert_rotation (get_rotation_to_z_axis n)) ⟨0, 0, 1⟩ = n := by
    rw [get_rotation_to_z_axis, if_neg (not_lt.mpr hz)]
    simp only [rotate_point, invert_rotation, Quaternion.normalize, Quaternion.magnitude,
      Vector3.dot]
    set m := Real.sqrt ((1 + n.z) * (1 + n.z) + (n.y * n.y + -n.x * -n.x + 0 * 0)) with hm
    have hm2 : m * m = 2 * (1 + n.z) := by
      rw [hm, Real.mul_self_sqrt (by nlinarith [sq_nonneg n.x, sq_nonneg n.y])]
      linear_combination hxyz
    have hm0 : 0 < m := by
      rw [hm]
      apply Real.sqrt_pos.mpr
      nlinarith [sq_nonneg n.x, sq_nonneg n.y]
    ext
    · simp only [Vector3.scale, Vector3.dot, Vector3.cross, Vector3.add_def]
      field_simp
      exact Or.inl hm2.symm
    · simp only [Vector3.scale, Vector3.dot, Vector3.cross, Vector3.add_def]
      field_simp
      exact Or.inl hm2.symm
    · simp only [Vector3.scale, Vector3.dot, Vector3.cross, Vector3.add_def]
      field_simp
      linear_combination (-n.z) * hm2 - hxyz
  refine ⟨key, ?_, ?_, ?_⟩ <;> rw [key] <;> norm_num

/-- Counterexample for C5 as stated: a unit vector in the special-case cone
`z < −0.99999` whose round trip `(0,0,−1)` misses `n.x` by `0.001`,
far beyond the 1e−5 tolerance. -/
theorem C5_counterexample :
    nSpecial.squared_length = 1
    ∧ nSpecial.z < -0.99999
    ∧ ¬(|(rotate_point (invert_rotation (get_rotation_to_z_axis nSpecial)) ⟨0, 0, 1⟩).x
          - nSpecial.x| ≤ 0.00001) := by
  have hc : Real.sqrt (999999 / 1000000) * Real.sqrt (999999 / 1000000) =
      999999 / 1000000 := Real.mul_self_sqrt (by norm_num)
  have hlen : nSpecial.squared_length = 1 := by
    simp only [nSpecial, Vector3.squared_length]
    linear_combination hc
  have hz : nSpecial.z < -0.99999 := by
    simp only [nSpecial]
    have : (0.99999 : ℝ) < Real.sqrt (999999 / 1000000) :=
      (Real.lt_sqrt (by norm_num)).mpr (by norm_num)
    linarith
  refine ⟨hlen, hz, ?_⟩
  rw [get_rotation_to_z_axis, if_pos hz]
  simp only [rotate_point, invert_rotation, Vector3.scale, Vector3.dot, Vector3.cross,
    Vector3.add_def, nSpecial]
  norm_num
  rw [abs_of_pos (show (0 : ℝ) < 1 / 1000 by norm_num)]
  norm_num

/-- Witness for C5 at `n = (0,0,1)`. -/
theorem C5_witness :
    (⟨0, 0, 1⟩ : Vector3).squared_length = 1
    ∧ (-0.99999 : ℝ) ≤ (⟨0, 0, 1⟩ : Vector3).z
    ∧ rotate_point (invert_rotation (get_rotation_to_z_axis ⟨0, 0, 1⟩)) ⟨0, 0, 1⟩ =
        (⟨0, 0, 1⟩ : Vector3) := by
  have h1 : (⟨0, 0, 1⟩ : Vector3).squared_length = 1 := by
    norm_num [Vector3.squared_length]
  have h2 : (-0.99999 : ℝ) ≤ (⟨0, 0, 1⟩ : Vector3).z := by norm_num
  exact ⟨h1, h2, (C5_rotation_roundtrip ⟨0, 0, 1⟩ h1 h2).1⟩

/-! ## Characterisation of `hit_triangles` as a fold over candidates -/

/-- `hitList` generalised to an arbitrary starting accumulator. -/
def hitListFrom (ray : Ray) (t_min t_max : ℝ) (acc : Option Hit)
    (l : List (Material × Triangle)) : Option Hit :=
  l.foldl (fun r c => hitTriStep ray t_min t_max c.1 r c.2) acc

/-- Folding over the meshes and then their triangles equals folding over the
flattened candidate list. -/
theorem foldl_meshes (ray : Ray) (t_min t_max : ℝ) (ms : List Mesh) :
    ∀ acc : Option Hit,
      ms.foldl
          (fun result mesh => mesh.kd.foldl (hitTriStep ray t_min t_max mesh.material) result)
          acc =
        hitListFrom ray t_min t_max acc
          (ms.flatMap (fun mesh => mesh.kd.map (fun tri => (mesh.material, tri)))) := by
  induction ms with
  | nil => intro acc; rfl
  | cons mesh ms ih =>
      intro acc
      rw [List.foldl_cons, List.flatMap_cons, hitListFrom, List.foldl_append,
        List.foldl_map]
      exact ih _

/-- `Scene::hit_triangles` is the candidate-list fold. -/
theorem hit_triangles_eq_hitList (s : Scene) (ray : Ray) (t_min t_max : ℝ) :
    s.hit_triangles ray t_min t_max = hitList ray t_min t_max s.candidates := by
  rw [Scene.hit_triangles, Scene.candidates, hitList]
  exact foldl_meshes ray t_min t_max s.kd none

/-- Structure of the candidate fold: when it returns `none` there were no
in-range hits; when it returns a hit, that hit is the accumulator or one of
the candidates' hits, and its `t` is minimal among both. -/
theorem hitListFrom_spec (ray : Ray) (t_min t_max : ℝ) (l : List (Material × Triangle)) :
    ∀ acc : Option Hit,
      (hitListFrom ray t_min t_max acc l = none ↔
        acc = none ∧ candHits ray t_min t_max l = [])
      ∧ (∀ h, hitListFrom ray t_min t_max acc l = some h →
          (acc = some h ∨ h ∈ candHits ray t_min t_max l)
          ∧ (∀ p, acc = some p → h.t ≤ p.t)
          ∧ (∀ h', h' ∈ candHits ray t_min t_max l → h.t ≤ h'.t)) := by
  induction l with
  | nil =>
      intro acc
      refine ⟨by simp [hitListFrom, candHits], fun h hres => ?_⟩
      simp only [hitListFrom, List.foldl_nil] at hres
      subst hres
      exact ⟨Or.inl rfl, fun p hp => by injection hp with hp; rw [hp],
        fun h' hh' => by simp [candHits] at hh'⟩
  | cons c l ih =>
      intro acc
      have hstep : hitListFrom ray t_min t_max acc (c :: l) =
          hitListFrom ray t_min t_max (hitTriStep ray t_min t_max c.1 acc c.2) l := rfl
      cases hrti : ray_triangle_intersection ray c.2 c.1.single_sided t_min t_max with
      | none =>
          have hs : hitTriStep ray t_min t_max c.1 acc c.2 = acc := by
            simp [hitTriStep, hrti]
          have hc : candHits ray t_min t_max (c :: l) = candHits ray t_min t_max l := by
            simp [candHits, List.filterMap_cons, hrti]
          rw [hstep, hs, hc]
          exact ih acc
      | some int =>
          have hc : candHits ray t_min t_max (c :: l) =
              mkHit ray c.1 int :: candHits ray t_min t_max l := by
            simp [candHits, List.filterMap_cons, hrti]
          cases acc with
          | none =>
              have hs : hitTriStep ray t_min t_max c.1 none c.2 =
                  some (mkHit ray c.1 int) := by
                simp [hitTriStep, hrti]
              rw [hstep, hs, hc]
              constructor
              · rw [(ih _).1]; simp
              · intro h hres
                obtain ⟨hmem, hminacc, hminlist⟩ := (ih _).2 h hres
                refine ⟨Or.inr ?_, fun p hp => by simp at hp, fun h' hh' => ?_⟩
                · rcases hmem with he | hm
                  · injection he with he
                    rw [← he]
                    exact List.mem_cons_self _ _
                  · exact List.mem_cons_of_mem _ hm
                · rcases List.mem_cons.mp hh' with rfl | hm
                  · exact hminacc _ rfl
                  · exact hminlist _ hm
          | some p0 =>
              by_cases hlt : int.t < p0.t
              · have hs : hitTriStep ray t_min t_max c.1 (some p0) c.2 =
                    some (mkHit ray c.1 int) := by
                  simp [hitTriStep, hrti, hlt]
                rw [hstep, hs, hc]
                constructor
                · rw [(ih _).1]; simp
                · intro h hres
                  obtain ⟨hmem, hminacc, hminlist⟩ := (ih _).2 h hres
                  have hnew : h.t ≤ (mkHit ray c.1 int).t := hminacc _ rfl
                  refine ⟨Or.inr ?_, fun p hp => ?_, fun h' hh' => ?_⟩
                  · rcases hmem with he | hm
                    · injection he with he
                      rw [← he]
                      exact List.mem_cons_self _ _
                    · exact List.mem_cons_of_mem _ hm
                  · injection hp with hp
                    rw [← hp]
                    exact le_trans hnew (le_of_lt hlt)
                  · rcases List.mem_cons.mp hh' with rfl | hm
                    · exact hnew
                    · exact hminlist _ hm
              · have hs : hitTriStep ray t_min t_max c.1 (some p0) c.2 = some p0 := by
                  simp [hitTriStep, hrti, hlt]
                rw [hstep, hs, hc]
                constructor
                · rw [(ih _).1]; simp
                · intro h hres
                  obtain ⟨hmem, hminacc, hminlist⟩ := (ih _).2 h hres
                  have hacc : h.t ≤ p0.t := hminacc _ rfl
                  refine ⟨?_, fun p hp => ?_, fun h' hh' => ?_⟩
                  · rcases hmem with he | hm
                    · exact Or.inl he
                    · exact Or.inr (List.mem_cons_of_mem _ hm)
                  · injection hp with hp
                    rw [← hp]
                    exact hacc
                  · rcases List.mem_cons.mp hh' with rfl | hm
                    · exact le_trans hacc (not_lt.mp hlt)
                    · exact hminlist _ hm

/-- `hit_triangles` returns `none` exactly when no candidate is hit in
range. -/
theorem hit_triangles_none_iff (s : Scene) (ray : Ray) (t_min t_max : ℝ) :
    s.hit_triangles ray t_min t_max = none ↔
      candHits ray t_min t_max s.candidates = [] := by
  rw [hit_triangles_eq_hitList, hitList]
  have h := (hitListFrom_spec ray t_min t_max s.candidates none).1
  rw [hitListFrom] at h
  rw [h]
  simp

/-- Any hit returned by `hit_triangles` is a candidate hit with minimal
`t`. -/
theorem hit_triangles_min (s : Scene) (ray : Ray) (t_min t_max : ℝ) (h : Hit)
    (hres : s.hit_triangles ray t_min t_max = some h) :
    h ∈ candHits ray t_min t_max s.candidates
    ∧ ∀ h' ∈ candHits ray t_min t_max s.candidates, h.t ≤ h'.t := by
  rw [hit_triangles_eq_hitList, hitList] at hres
  obtain ⟨hmem, _, hmin⟩ :=
    (hitListFrom_spec ray t_min t_max s.candidates none).2 h hres
  exact ⟨hmem.resolve_left (by simp), hmin⟩

/-! ## Range bounds of accepted intersections -/

/-- `ray_triangle_intersection` only accepts `t` inside `[t_min, t_max]`. -/
theorem rti_t_bounds (ray : Ray) (tri : Triangle) (ss : Bool) (t_min t_max : ℝ)
    (int : TriangleIntersection)
    (h : ray_triangle_intersection ray tri ss t_min t_max = some int) :
    t_min ≤ int.t ∧ int.t ≤ t_max := by
  simp only [ray_triangle_intersection] at h
  split_ifs at h with h1 h2 h3 h4 h5
  cases h
  push_neg at h5
  exact ⟨h5.1, h5.2⟩

/-- A candidate hit's `t` lies in `[t_min, t_max]`. -/
theorem candHits_t_bounds (ray : Ray) (t_min t_max : ℝ)
    (l : List (Material × Triangle)) (h : Hit) (hm : h ∈ candHits ray t_min t_max l) :
    t_min ≤ h.t ∧ h.t ≤ t_max := by
  rw [candHits] at hm
  obtain ⟨c, _, hc⟩ := List.mem_filterMap.mp hm
  obtain ⟨int, hint, hmk⟩ := Option.map_eq_some'.mp hc
  have := rti_t_bounds ray c.2 c.1.single_sided t_min t_max int hint
  rw [← hmk]
  exact this

/-- Any hit returned by `hit_triangles` has `t` in `[t_min, t_max]`. -/
theorem hit_triangles_t_bounds (s : Scene) (ray : Ray) (t_min t_max : ℝ) (h : Hit)
    (hres : s.hit_triangles ray t_min t_max = some h) :
    t_min ≤ h.t ∧ h.t ≤ t_max :=
  candHits_t_bounds ray t_min t_max s.candidates h (hit_triangles_min s ray t_min t_max h hres).1

/-- When the range is empty, `hit_triangles` finds nothing. -/
theorem hit_triangles_none_of_empty_range (s : Scene) (ray : Ray) (t_min t_max : ℝ)
    (hlt : t_max < t_min) : s.hit_triangles ray t_min t_max = none := by
  cases hres : s.hit_triangles ray t_min t_max with
  | none => rfl
  | some h =>
      have := hit_triangles_t_bounds s ray t_min t_max h hres
      linarith [this.1, this.2]

/-! ## C3: smallest-`t` selection and order independence -/

/-- In a list of hits with pairwise distinct `t`, equal `t` means equal
hit. -/
theorem pairwise_t_inj {L : List Hit}
    (hp : L.Pairwise (fun a b => a.t ≠ b.t)) :
    ∀ {a b : Hit}, a ∈ L → b ∈ L → a.t = b.t → a = b := by
  induction L with
  | nil => intro a b ha; simp at ha
  | cons x L ih =>
      intro a b ha hb ht
      rcases List.mem_cons.mp ha with rfl | ha' <;>
        rcases List.mem_cons.mp hb with rfl | hb'
      · rfl
      · exact absurd ht ((List.pairwise_cons.mp hp).1 b hb')
      · exact absurd ht.symm ((List.pairwise_cons.mp hp).1 a ha')
      · exact ih (List.pairwise_cons.mp hp).2 ha' hb' ht

/-- Claim C3: for every scene and ray (with all in-range candidate `t`
values distinct, so that "the hit with the smallest `t`" is well defined),
`Scene::hit_triangles` returns the hit with the smallest intersection
parameter `t` among all triangles of all meshes intersected within
`[t_min, t_max]`, and this result is independent of the order in which
candidate meshes and triangles are visited (any permutation of the
flattened candidate list gives the same result); it returns `none` iff no
candidate is intersected. -/
theorem C3_smallest_hit_order_independent (s1 s2 : Scene) (ray : Ray)
    (t_min t_max : ℝ) (hperm : s1.candidates.Perm s2.candidates)
    (hdist : (candHits ray t_min t_max s1.candidates).Pairwise
      (fun a b => a.t ≠ b.t)) :
    s1.hit_triangles ray t_min t_max = s2.hit_triangles ray t_min t_max
    ∧ (∀ h, s1.hit_triangles ray t_min t_max = some h →
        h ∈ candHits ray t_min t_max s1.candidates
        ∧ ∀ h' ∈ candHits ray t_min t_max s1.candidates, h.t ≤ h'.t)
    ∧ (s1.hit_triangles ray t_min t_max = none ↔
        candHits ray t_min t_max s1.candidates = []) := by
  have hchperm : (candHits ray t_min t_max s1.candidates).Perm
      (candHits ray t_min t_max s2.candidates) := hperm.filterMap _
  refine ⟨?_, fun h => hit_triangles_min s1 ray t_min t_max h,
    hit_triangles_none_iff s1 ray t_min t_max⟩
  cases hres1 : s1.hit_triangles ray t_min t_max with
  | none =>
      have h1 : candHits ray t_min t_max s1.candidates = [] :=
        (hit_triangles_none_iff s1 ray t_min t_max).mp hres1
      have h2 : candHits ray t_min t_max s2.candidates = [] := by
        rw [h1] at hchperm
        exact hchperm.symm.eq_nil
      exact ((hit_triangles_none_iff s2 ray t_min t_max).mpr h2).symm
  | some h1 =>
      cases hres2 : s2.hit_triangles ray t_min t_max with
      | none =>
          have h2 : candHits ray t_min t_max s2.candidates = [] :=
            (hit_triangles_none_iff s2 ray t_min t_max).mp hres2
          have hm1 := (hit_triangles_min s1 ray t_min t_max h1 hres1).1
          rw [h2] at hchperm
          rw [hchperm.eq_nil] at hm1
          exact absurd hm1 (by simp)
      | some h2 =>
          obtain ⟨hm1, hmin1⟩ := hit_triangles_min s1 ray t_min t_max h1 hres1
          obtain ⟨hm2, hmin2⟩ := hit_triangles_min s2 ray t_min t_max h2 hres2
          have hm2' : h2 ∈ candHits ray t_min t_max s1.candidates :=
            hchperm.mem_iff.mpr hm2
          have hm1' : h1 ∈ candHits ray t_min t_max s2.candidates :=
            hchperm.mem_iff.mp hm1
          have ht : h1.t = h2.t :=
            le_antisymm (hmin1 h2 hm2') (hmin2 h1 hm1')
          rw [pairwise_t_inj hdist hm1 hm2' ht]

/-! ## The alpha-mask restart loop -/

/-- One unfolding of the loop body of `Scene::hit`. -/
theorem hitAux_succ (s : Scene) (dir : Vector3) (n : ℕ) (cur : Ray)
    (t_min ctmax : ℝ) :
    s.hitAux dir (n + 1) cur t_min ctmax =
      match s.hit_triangles cur t_min ctmax with
      | some h =>
          if h.material.discard h.uv then
            s.hitAux dir n ⟨h.position, dir⟩ t_min (ctmax - h.t)
          else some (some h)
      | none => some none := rfl

/-- A finished loop never returns a discarded hit. -/
theorem hitAux_opaque (s : Scene) (dir : Vector3) :
    ∀ (fuel : ℕ) (cur : Ray) (t_min ctmax : ℝ) (h : Hit),
      s.hitAux dir fuel cur t_min ctmax = some (some h) →
      h.material.discard h.uv = false := by
  intro fuel
  induction fuel with
  | zero => intro cur t_min ctmax h hres; simp [Scene.hitAux] at hres
  | succ n ih =>
      intro cur t_min ctmax h hres
      cases hht : s.hit_triangles cur t_min ctmax with
      | none => simp only [hitAux_succ, hht] at hres; simp at hres
      | some h0 =>
          simp only [hitAux_succ, hht] at hres
          by_cases hd : h0.material.discard h0.uv
          · rw [if_pos hd] at hres
            exact ih _ _ _ _ hres
          · rw [if_neg hd] at hres
            simp only [Option.some.injEq] at hres
            rw [← hres]
            simpa using hd

/-- If every intersected surface is discarded, a finished loop returns
`none`. -/
theorem hitAux_all_discarded (s : Scene) (dir : Vector3)
    (hall : ∀ (cur : Ray) (ctmin ctmax : ℝ) (h : Hit),
      s.hit_triangles cur ctmin ctmax = some h → h.material.discard h.uv = true) :
    ∀ (fuel : ℕ) (cur : Ray) (t_min ctmax : ℝ) (r : Option Hit),
      s.hitAux dir fuel cur t_min ctmax = some r → r = none := by
  intro fuel
  induction fuel with
  | zero => intro cur t_min ctmax r hres; simp [Scene.hitAux] at hres
  | succ n ih =>
      intro cur t_min ctmax r hres
      cases hht : s.hit_triangles cur t_min ctmax with
      | none =>
          simp only [hitAux_succ, hht] at hres
          simp at hres
          exact hres.symm
      | some h0 =>
          simp only [hitAux_succ, hht, if_pos (hall _ _ _ _ hht)] at hres
          exact ih _ _ _ _ hres

/-- With `0 < t_min`, a budget exceeding `ctmax / t_min` always finishes
the loop: every discarded hit shrinks `t_max` by at least `t_min`. -/
theorem hitAux_terminates (s : Scene) (dir : Vector3) (t_min : ℝ) :
    ∀ (fuel : ℕ) (cur : Ray) (ctmax : ℝ), ctmax < t_min * (fuel + 1) →
      ∃ r, s.hitAux dir (fuel + 1) cur t_min ctmax = some r := by
  intro fuel
  induction fuel with
  | zero =>
      intro cur ctmax hbound
      have hnone : s.hit_triangles cur t_min ctmax = none := by
        apply hit_triangles_none_of_empty_range
        simpa using hbound
      exact ⟨none, by simp only [hitAux_succ, hnone]⟩
  | succ n ih =>
      intro cur ctmax hbound
      cases hht : s.hit_triangles cur t_min ctmax with
      | none => exact ⟨none, by simp only [hitAux_succ, hht]⟩
      | some h0 =>
          by_cases hd : h0.material.discard h0.uv
          · have hbt := hit_triangles_t_bounds s cur t_min ctmax h0 hht
            have hbound2 : ctmax - h0.t < t_min * (n + 1) := by
              push_cast at hbound
              nlinarith [hbt.1]
            obtain ⟨r, hr⟩ := ih ⟨h0.position, dir⟩ (ctmax - h0.t) hbound2
            exact ⟨r, by simp only [hitAux_succ, hht, if_pos hd]; exact hr⟩
          · exact ⟨some h0, by simp only [hitAux_succ, hht, if_neg hd]⟩

/-- Every hit a finished loop returns keeps `t` within `[t_min, ctmax]`
provided `0 ≤ t_min` (each restart can only shrink the range then). -/
theorem hitAux_t_bounds (s : Scene) (dir : Vector3) (t_min : ℝ) (ht : 0 ≤ t_min) :
    ∀ (fuel : ℕ) (cur : Ray) (ctmax : ℝ) (h : Hit),
      s.hitAux dir fuel cur t_min ctmax = some (some h) →
      t_min ≤ h.t ∧ h.t ≤ ctmax := by
  intro fuel
  induction fuel with
  | zero => intro cur ctmax h hres; simp [Scene.hitAux] at hres
  | succ n ih =>
      intro cur ctmax h hres
      cases hht : s.hit_triangles cur t_min ctmax with
      | none => simp only [hitAux_succ, hht] at hres; simp at hres
      | some h0 =>
          simp only [hitAux_succ, hht] at hres
          by_cases hd : h0.material.discard h0.uv
          · rw [if_pos hd] at hres
            have hbt := hit_triangles_t_bounds s cur t_min ctmax h0 hht
            have hrec := ih _ _ _ hres
            exact ⟨hrec.1, by linarith [hrec.2, hbt.1]⟩
          · rw [if_neg hd] at hres
            simp only [Option.some.injEq] at hres
            rw [← hres]
            exact hit_triangles_t_bounds s cur t_min ctmax h0 hht

/-- The chosen budget `hitFuel` satisfies the termination bound whenever
`0 < t_min`. -/
theorem hitFuel_bound (t_min t_max : ℝ) (ht : 0 < t_min) :
    t_max < t_min * (hitFuel t_min t_max) := by
  rw [hitFuel]
  push_cast
  rcases le_or_lt t_max 0 with hle | hpos
  · nlinarith [Nat.cast_nonneg (α := ℝ) ⌈t_max / t_min⌉₊]
  · have h1 : t_max / t_min ≤ (⌈t_max / t_min⌉₊ : ℝ) := Nat.le_ceil _
    rw [div_le_iff₀ ht] at h1
    nlinarith

/-- Claim C2: in `Scene::hit`, whenever the inner triangle query returns a
hit whose material is alpha-mask discarded at the hit's UV, the query is
restarted from the hit position in the same direction with `t_max` reduced
by `hit.t`; under the precondition `t_min > 0` this loop terminates for
every ray (the budget `hitFuel` suffices), returning either a hit that is
not discarded (opaque) or `none`, and when every intersected surface is
discarded it returns `none`. -/
theorem C2_alpha_mask_loop (s : Scene) (ray : Ray) (t_min t_max : ℝ)
    (ht : 0 < t_min) :
    (∀ (fuel : ℕ) (cur : Ray) (ctmax : ℝ) (h : Hit),
        s.hit_triangles cur t_min ctmax = some h →
        h.material.discard h.uv = true →
        s.hitAux ray.direction (fuel + 1) cur t_min ctmax =
          s.hitAux ray.direction fuel ⟨h.position, ray.direction⟩ t_min (ctmax - h.t))
    ∧ ∃ r : Option Hit,
        s.hitAux ray.direction (hitFuel t_min t_max) ray t_min t_max = some r
        ∧ s.hit ray t_min t_max = r
        ∧ (∀ h, r = some h → h.material.discard h.uv = false)
        ∧ ((∀ (cur : Ray) (ctmin ctmax : ℝ) (h : Hit),
              s.hit_triangles cur ctmin ctmax = some h →
              h.material.discard h.uv = true) → r = none) := by
  constructor
  · intro fuel cur ctmax h hht hd
    simp only [hitAux_succ, hht, if_pos hd]
  · have hfuel : ∃ n, hitFuel t_min t_max = n + 1 := ⟨⌈t_max / t_min⌉₊, rfl⟩
    obtain ⟨n, hn⟩ := hfuel
    have hbound : t_max < t_min * (n + 1) := by
      have := hitFuel_bound t_min t_max ht
      rw [hn] at this
      push_cast at this ⊢
      linarith
    obtain ⟨r, hr⟩ := hitAux_terminates s ray.direction t_min n ray t_max hbound
    rw [← hn] at hr
    refine ⟨r, hr, ?_, ?_, ?_⟩
    · rw [Scene.hit, hr, Option.getD_some]
    · intro h hh
      rw [hh] at hr
      exact hitAux_opaque s ray.direction _ _ _ _ _ hr
    · intro hall
      exact hitAux_all_discarded s ray.direction hall _ _ _ _ _ hr

/-- Witness for C2 on the empty scene (`t_min = 1`, `t_max = 100`): the
loop finishes with `none`. -/
theorem C2_witness :
    (0 : ℝ) < 1
    ∧ sceneEmpty.hitAux rayStd.direction (hitFuel 1 100) rayStd 1 100 = some none
    ∧ sceneEmpty.hit rayStd 1 100 = none := by
  have ht : (0 : ℝ) < 1 := by norm_num
  obtain ⟨-, r, hr, hhit, -, hall⟩ := C2_alpha_mask_loop sceneEmpty rayStd 1 100 ht
  have hrnone : r = none := by
    apply hall
    intro cur ctmin ctmax h hh
    simp [Scene.hit_triangles, sceneEmpty] at hh
  rw [hrnone] at hr hhit
  exact ⟨ht, hr, hhit⟩

/-! ## Concrete intersection evaluations -/

/-- The vertical test ray from height `z0` meets `triAt d` at
`t = z0 - d` (when in range). -/
theorem rti_triAt_hit (z0 d t_min t_max : ℝ) (ss : Bool) (h1 : t_min ≤ z0 - d)
    (h2 : z0 - d ≤ t_max) :
    ray_triangle_intersection ⟨⟨0.25, 0.25, z0⟩, ⟨0, 0, -1⟩⟩ (triAt d) ss t_min t_max =
      some ⟨z0 - d, (0.25, 0.25), ⟨0, 0, 1⟩, ⟨1, 0, 0⟩, ⟨0, 1, 0⟩⟩ := by
  simp only [ray_triangle_intersection, triAt, Matrix.cons_val_zero, Matrix.cons_val_one,
    Matrix.head_cons, Matrix.cons_val_two, Matrix.tail_cons, Vector3.sub_def,
    Vector3.cross, Vector3.dot, Vector3.scale, Vector3.unit, Vector3.length,
    Vector3.squared_length, Vector3.add_def, EPSILON]
  norm_num [Real.sqrt_one]
  intro hcon
  rcases hcon with hc | hc
  · exact absurd hc (not_lt.mpr h1)
  · exact absurd hc (not_lt.mpr h2)

/-- The vertical test ray misses `triAt d` when `t = z0 - d` is out of
range. -/
theorem rti_triAt_miss (z0 d t_min t_max : ℝ) (ss : Bool)
    (h : z0 - d < t_min ∨ t_max < z0 - d) :
    ray_triangle_intersection ⟨⟨0.25, 0.25, z0⟩, ⟨0, 0, -1⟩⟩ (triAt d) ss t_min t_max =
      none := by
  simp only [ray_triangle_intersection, triAt, Matrix.cons_val_zero, Matrix.cons_val_one,
    Matrix.head_cons, Matrix.cons_val_two, Matrix.tail_cons, Vector3.sub_def,
    Vector3.cross, Vector3.dot, Vector3.scale, Vector3.unit, Vector3.length,
    Vector3.squared_length, Vector3.add_def, EPSILON]
  norm_num [Real.sqrt_one]
  intro ha hb
  rcases h with hc | hc <;> linarith

/-- Projection lemmas for constructed hits. -/
theorem mkHit_material (ray : Ray) (m : Material) (int : TriangleIntersection) :
    (mkHit ray m int).material = m := rfl

/-- The `t` of a constructed hit is the intersection's `t`. -/
theorem mkHit_t (ray : Ray) (m : Material) (int : TriangleIntersection) :
    (mkHit ray m int).t = int.t := rfl

/-- The `uv` of a constructed hit is the intersection's `uv`. -/
theorem mkHit_uv (ray : Ray) (m : Material) (int : TriangleIntersection) :
    (mkHit ray m int).uv = int.uv := rfl

/-- The position of a constructed hit. -/
theorem mkHit_position (ray : Ray) (m : Material) (int : TriangleIntersection) :
    (mkHit ray m int).position = ray.point_at int.t := rfl

/-- The plain opaque material never discards. -/
theorem matOpaque_discard (uv : ℝ × ℝ) : matOpaque.discard uv = false := by
  simp [Material.discard, matOpaque]

/-- Opaque-material intersection with the `t = 2` triangle. -/
theorem rti_opaque_t2 :
    ray_triangle_intersection rayStd (triAt (-2)) matOpaque.single_sided 1 100 =
      some ⟨2, (0.25, 0.25), ⟨0, 0, 1⟩, ⟨1, 0, 0⟩, ⟨0, 1, 0⟩⟩ := by
  have h := rti_triAt_hit 0 (-2) 1 100 false (by norm_num) (by norm_num)
  rw [show matOpaque.single_sided = false from rfl, show rayStd = ⟨⟨0.25, 0.25, 0⟩, ⟨0, 0, -1⟩⟩ from rfl]
  rw [h]
  norm_num

/-- Opaque-material intersection with the `t = 5` triangle. -/
theorem rti_opaque_t5 :
    ray_triangle_intersection rayStd (triAt (-5)) matOpaque.single_sided 1 100 =
      some ⟨5, (0.25, 0.25), ⟨0, 0, 1⟩, ⟨1, 0, 0⟩, ⟨0, 1, 0⟩⟩ := by
  have h := rti_triAt_hit 0 (-5) 1 100 false (by norm_num) (by norm_num)
  rw [show matOpaque.single_sided = false from rfl, show rayStd = ⟨⟨0.25, 0.25, 0⟩, ⟨0, 0, -1⟩⟩ from rfl]
  rw [h]
  norm_num

/-- The two-triangle scenes have (swapped) candidate lists. -/
theorem candidates_T2T5 :
    sceneT2T5a.candidates = [(matOpaque, triAt (-2)), (matOpaque, triAt (-5))]
    ∧ sceneT2T5b.candidates = [(matOpaque, triAt (-5)), (matOpaque, triAt (-2))] :=
  ⟨rfl, rfl⟩

/-- The in-range candidate hits of the `t=2`/`t=5` scene. -/
theorem candHits_T2T5 :
    candHits rayStd 1 100 sceneT2T5a.candidates =
      [mkHit rayStd matOpaque ⟨2, (0.25, 0.25), ⟨0, 0, 1⟩, ⟨1, 0, 0⟩, ⟨0, 1, 0⟩⟩,
        mkHit rayStd matOpaque ⟨5, (0.25, 0.25), ⟨0, 0, 1⟩, ⟨1, 0, 0⟩, ⟨0, 1, 0⟩⟩] := by
  rw [candidates_T2T5.1, candHits, List.filterMap_cons, List.filterMap_cons]
  rw [rti_opaque_t2, rti_opaque_t5]
  rfl

/-- Evaluating `hit_triangles` on both insertion orders: the `t = 2` hit
wins either way. -/
theorem hit_triangles_T2T5 :
    sceneT2T5a.hit_triangles rayStd 1 100 =
      some (mkHit rayStd matOpaque ⟨2, (0.25, 0.25), ⟨0, 0, 1⟩, ⟨1, 0, 0⟩, ⟨0, 1, 0⟩⟩)
    ∧ sceneT2T5b.hit_triangles rayStd 1 100 =
      some (mkHit rayStd matOpaque ⟨2, (0.25, 0.25), ⟨0, 0, 1⟩, ⟨1, 0, 0⟩, ⟨0, 1, 0⟩⟩) := by
  constructor
  · rw [hit_triangles_eq_hitList, candidates_T2T5.1, hitList, List.foldl_cons,
      List.foldl_cons, List.foldl_nil]
    simp only [hitTriStep, rti_opaque_t2, rti_opaque_t5, mkHit]
    norm_num
  · rw [hit_triangles_eq_hitList, candidates_T2T5.2, hitList, List.foldl_cons,
      List.foldl_cons, List.foldl_nil]
    simp only [hitTriStep, rti_opaque_t5, rti_opaque_t2, mkHit]
    norm_num

/-- Witness for C3 on the two disjoint triangles at `t = 2` and `t = 5`:
the hypotheses hold and the query returns the `t = 2` hit for both
insertion orders. -/
theorem C3_witness :
    sceneT2T5a.candidates.Perm sceneT2T5b.candidates
    ∧ (candHits rayStd 1 100 sceneT2T5a.candidates).Pairwise (fun a b => a.t ≠ b.t)
    ∧ sceneT2T5a.hit_triangles rayStd 1 100 = sceneT2T5b.hit_triangles rayStd 1 100
    ∧ sceneT2T5a.hit_triangles rayStd 1 100 =
        some (mkHit rayStd matOpaque ⟨2, (0.25, 0.25), ⟨0, 0, 1⟩, ⟨1, 0, 0⟩, ⟨0, 1, 0⟩⟩) := by
  have hperm : sceneT2T5a.candidates.Perm sceneT2T5b.candidates := by
    rw [candidates_T2T5.1, candidates_T2T5.2]
    exact List.Perm.swap _ _ _
  have hpw : (candHits rayStd 1 100 sceneT2T5a.candidates).Pairwise
      (fun a b => a.t ≠ b.t) := by
    rw [candHits_T2T5]
    refine List.Pairwise.cons ?_ (List.pairwise_singleton _ _)
    intro b hb
    rw [List.mem_singleton.mp hb]
    simp [mkHit]
  exact ⟨hperm, hpw,
    (C3_smallest_hit_order_independent sceneT2T5a sceneT2T5b rayStd 1 100 hperm hpw).1,
    hit_triangles_T2T5.1⟩

/-! ## C7: hits stay within the query range -/

/-- Claim C7 (amended): `ray_triangle_intersection` returns `Some` only
when the intersection parameter satisfies `t_min ≤ t ≤ t_max`, and —
provided `0 ≤ t_min`, so that each alpha-mask restart can only shrink the
range — every `Hit` returned by `Scene::hit` (including hits found after
restarts) has its `t` within `[t_min, t_max]` of the query it answers.
For `t_min < 0` a discarded hit at negative `t` widens the remaining range
and the bound can fail (see the counterexample). -/
theorem C7_hit_t_in_range :
    (∀ (ray : Ray) (tri : Triangle) (ss : Bool) (t_min t_max : ℝ)
        (int : TriangleIntersection),
        ray_triangle_intersection ray tri ss t_min t_max = some int →
        t_min ≤ int.t ∧ int.t ≤ t_max)
    ∧ (∀ (s : Scene) (dir : Vector3) (fuel : ℕ) (cur : Ray) (t_min t_max : ℝ)
        (h : Hit), 0 ≤ t_min →
        s.hitAux dir fuel cur t_min t_max = some (some h) →
        t_min ≤ h.t ∧ h.t ≤ t_max)
    ∧ (∀ (s : Scene) (ray : Ray) (t_min t_max : ℝ) (h : Hit), 0 ≤ t_min →
        s.hit ray t_min t_max = some h → t_min ≤ h.t ∧ h.t ≤ t_max) := by
  refine ⟨rti_t_bounds,
    fun s dir fuel cur t_min t_max h ht hres =>
      hitAux_t_bounds s dir t_min ht fuel cur t_max h hres, ?_⟩
  intro s ray t_min t_max h ht hres
  rw [Scene.hit] at hres
  cases haux : s.hitAux ray.direction (hitFuel t_min t_max) ray t_min t_max with
  | none => rw [haux] at hres; simp at hres
  | some r =>
      rw [haux, Option.getD_some] at hres
      rw [hres] at haux
      exact hitAux_t_bounds s ray.direction t_min ht _ ray t_max h haux

/-- Mask-material intersection with the `t = -6` triangle (range
`[-10, -6]`). -/
theorem rti_mask_back :
    ray_triangle_intersection rayStd (triAt 6) matMaskAll.single_sided (-10) (-6) =
      some ⟨-6, (0.25, 0.25), ⟨0, 0, 1⟩, ⟨1, 0, 0⟩, ⟨0, 1, 0⟩⟩ := by
  have h := rti_triAt_hit 0 6 (-10) (-6) false (by norm_num) (by norm_num)
  rw [show matMaskAll.single_sided = false from rfl,
    show rayStd = ⟨⟨0.25, 0.25, 0⟩, ⟨0, 0, -1⟩⟩ from rfl]
  rw [h]
  norm_num

/-- The opaque `t = -11` triangle is out of the first query's range. -/
theorem rti_opaque_far_miss :
    ray_triangle_intersection rayStd (triAt 11) matOpaque.single_sided (-10) (-6) =
      none := by
  have h := rti_triAt_miss 0 11 (-10) (-6) false (by norm_num)
  rw [show matOpaque.single_sided = false from rfl,
    show rayStd = ⟨⟨0.25, 0.25, 0⟩, ⟨0, 0, -1⟩⟩ from rfl]
  exact h

/-- After the restart (origin on the mask triangle), the mask triangle sits
at `t = 0` of the widened range `[-10, 0]`. -/
theorem rti_mask_restart :
    ray_triangle_intersection ⟨⟨0.25, 0.25, 6⟩, ⟨0, 0, -1⟩⟩ (triAt 6)
        matMaskAll.single_sided (-10) 0 =
      some ⟨0, (0.25, 0.25), ⟨0, 0, 1⟩, ⟨1, 0, 0⟩, ⟨0, 1, 0⟩⟩ := by
  have h := rti_triAt_hit 6 6 (-10) 0 false (by norm_num) (by norm_num)
  rw [show matMaskAll.single_sided = false from rfl]
  rw [h]
  norm_num

/-- After the restart, the opaque triangle appears at `t = -5` of the
widened range. -/
theorem rti_opaque_restart :
    ray_triangle_intersection ⟨⟨0.25, 0.25, 6⟩, ⟨0, 0, -1⟩⟩ (triAt 11)
        matOpaque.single_sided (-10) 0 =
      some ⟨-5, (0.25, 0.25), ⟨0, 0, 1⟩, ⟨1, 0, 0⟩, ⟨0, 1, 0⟩⟩ := by
  have h := rti_triAt_hit 6 11 (-10) 0 false (by norm_num) (by norm_num)
  rw [show matOpaque.single_sided = false from rfl]
  rw [h]
  norm_num

/-- The all-discarding mask material discards every UV. -/
theorem matMaskAll_discard (uv : ℝ × ℝ) : matMaskAll.discard uv = true := by
  simp [Material.discard, matMaskAll, matOpaque, Material.sample_texture]

/-- Counterexample for C7 as stated: with `t_min = -10 < 0`, the alpha-mask
restart widens the range and `Scene::hit` returns a hit at `t = -5`,
outside the original `[-10, -6]`. -/
theorem C7_counterexample :
    Option.map Hit.t (sceneC7.hit rayStd (-10) (-6)) = some (-5)
    ∧ ¬((-5 : ℝ) ≤ -6) := by
  have h35 : ⌈(3 / 5 : ℝ)⌉₊ = 1 := by
    rw [Nat.ceil_eq_iff (by norm_num)]
    norm_num
  have hfuel : hitFuel (-10 : ℝ) (-6) = 2 := by
    rw [hitFuel]
    norm_num [h35]
  have hq1 : sceneC7.hit_triangles rayStd (-10) (-6) =
      some (mkHit rayStd matMaskAll ⟨-6, (0.25, 0.25), ⟨0, 0, 1⟩, ⟨1, 0, 0⟩, ⟨0, 1, 0⟩⟩) := by
    rw [hit_triangles_eq_hitList, show sceneC7.candidates =
      [(matMaskAll, triAt 6), (matOpaque, triAt 11)] from rfl, hitList,
      List.foldl_cons, List.foldl_cons, List.foldl_nil]
    simp only [hitTriStep, rti_mask_back, rti_opaque_far_miss]
  have hq2 : sceneC7.hit_triangles ⟨⟨0.25, 0.25, 6⟩, ⟨0, 0, -1⟩⟩ (-10) 0 =
      some (mkHit ⟨⟨0.25, 0.25, 6⟩, ⟨0, 0, -1⟩⟩ matOpaque
        ⟨-5, (0.25, 0.25), ⟨0, 0, 1⟩, ⟨1, 0, 0⟩, ⟨0, 1, 0⟩⟩) := by
    rw [hit_triangles_eq_hitList, show sceneC7.candidates =
      [(matMaskAll, triAt 6), (matOpaque, triAt 11)] from rfl, hitList,
      List.foldl_cons, List.foldl_cons, List.foldl_nil]
    simp only [hitTriStep, rti_mask_restart, rti_opaque_restart, mkHit]
    norm_num
  have hpos : (mkHit rayStd matMaskAll
      ⟨-6, (0.25, 0.25), ⟨0, 0, 1⟩, ⟨1, 0, 0⟩, ⟨0, 1, 0⟩⟩).position =
      (⟨0.25, 0.25, 6⟩ : Vector3) := by
    simp [mkHit, Ray.point_at, rayStd, Vector3.scale, Vector3.add_def]
  have hray : (⟨(mkHit rayStd matMaskAll
      ⟨-6, (0.25, 0.25), ⟨0, 0, 1⟩, ⟨1, 0, 0⟩, ⟨0, 1, 0⟩⟩).position,
      rayStd.direction⟩ : Ray) = ⟨⟨0.25, 0.25, 6⟩, ⟨0, 0, -1⟩⟩ := by
    rw [hpos]
    rfl
  have htsub : (-6 : ℝ) - (mkHit rayStd matMaskAll
      ⟨-6, (0.25, 0.25), ⟨0, 0, 1⟩, ⟨1, 0, 0⟩, ⟨0, 1, 0⟩⟩).t = 0 := by
    rw [mkHit_t]
    norm_num
  have hhit : sceneC7.hit rayStd (-10) (-6) =
      some (mkHit ⟨⟨0.25, 0.25, 6⟩, ⟨0, 0, -1⟩⟩ matOpaque
        ⟨-5, (0.25, 0.25), ⟨0, 0, 1⟩, ⟨1, 0, 0⟩, ⟨0, 1, 0⟩⟩) := by
    rw [Scene.hit, hfuel, show (2 : ℕ) = 1 + 1 from rfl]
    simp only [hitAux_succ, hq1, mkHit_material, mkHit_uv, matMaskAll_discard, if_true,
      hray, htsub, hq2, matOpaque_discard, Bool.false_eq_true, if_false,
      Option.getD_some]
  rw [hhit]
  simp only [Option.map_some', mkHit_t]
  norm_num

/-- Witness for C7 on the single opaque triangle at `t = 2` with range
`[1, 100]`. -/
theorem C7_witness :
    (0 : ℝ) ≤ 1
    ∧ sceneT2.hitAux rayStd.direction 1 rayStd 1 100 =
        some (some (mkHit rayStd matOpaque
          ⟨2, (0.25, 0.25), ⟨0, 0, 1⟩, ⟨1, 0, 0⟩, ⟨0, 1, 0⟩⟩))
    ∧ (1 : ℝ) ≤ (mkHit rayStd matOpaque
          ⟨2, (0.25, 0.25), ⟨0, 0, 1⟩, ⟨1, 0, 0⟩, ⟨0, 1, 0⟩⟩).t
    ∧ (mkHit rayStd matOpaque
          ⟨2, (0.25, 0.25), ⟨0, 0, 1⟩, ⟨1, 0, 0⟩, ⟨0, 1, 0⟩⟩).t ≤ 100 := by
  have hq : sceneT2.hit_triangles rayStd 1 100 =
      some (mkHit rayStd matOpaque ⟨2, (0.25, 0.25), ⟨0, 0, 1⟩, ⟨1, 0, 0⟩, ⟨0, 1, 0⟩⟩) := by
    rw [hit_triangles_eq_hitList, show sceneT2.candidates =
      [(matOpaque, triAt (-2))] from rfl, hitList, List.foldl_cons, List.foldl_nil]
    simp only [hitTriStep, rti_opaque_t2]
  have haux : sceneT2.hitAux rayStd.direction 1 rayStd 1 100 =
      some (some (mkHit rayStd matOpaque
        ⟨2, (0.25, 0.25), ⟨0, 0, 1⟩, ⟨1, 0, 0⟩, ⟨0, 1, 0⟩⟩)) := by
    rw [show (1 : ℕ) = 0 + 1 from rfl]
    simp only [hitAux_succ, hq, mkHit_material, mkHit_uv, matOpaque_discard,
      Bool.false_eq_true, if_false]
  exact ⟨by norm_num, haux,
    C7_hit_t_in_range.2.1 sceneT2 rayStd.direction 1 rayStd 1 100 _ (by norm_num) haux⟩

/-! ## C1: tracing an empty scene under the black environment -/

/-- With no meshes, `Scene::hit` always misses. -/
theorem Scene.hit_no_meshes (s : Scene) (hkd : s.kd = []) (ray : Ray)
    (t_min t_max : ℝ) : s.hit ray t_min t_max = none := by
  have h0 : s.hit_triangles ray t_min t_max = none := by
    rw [Scene.hit_triangles, hkd]
    rfl
  rw [Scene.hit, hitFuel]
  simp only [hitAux_succ, h0, Option.getD_some]

/-- On a scene with no meshes and the black environment, the trace loop
leaves `color` and `throughput` untouched. -/
theorem traceLoop_empty (t : Tracer) (hkd : t.scene.kd = [])
    (henv : t.scene.env = Env.Black) :
    ∀ (fuel bounce : ℕ) (ray : Ray) (color throughput : Vector3)
      (sampler : UniformSampler),
      t.traceLoop fuel bounce ray color throughput sampler = (color, throughput) := by
  intro fuel
  cases fuel with
  | zero => intro bounce ray color throughput sampler; rfl
  | succ n =>
      intro bounce ray color throughput sampler
      have hhit := Scene.hit_no_meshes t.scene hkd ray t.settings.t_min t.settings.t_max
      show (match t.scene.hit ray t.settings.t_min t.settings.t_max with
        | none => (color + throughput.mul (t.scene.environment ray), throughput)
        | some hit => _) = _
      rw [hhit]
      have henvc : t.scene.environment ray = Vector3.zero := by
        rw [Scene.environment, henv]
        rfl
      rw [henvc, Vector3.mul_zero', Vector3.add_zero']

/-- Claim C1 (amended): for every camera, tracer settings and pixel
coordinates, if the scene contains no meshes and no lights and the
environment is the constant-black environment, then `Tracer::trace(x, y)`
returns `(0,0,0)` — provided `max_scatter_depth ≠ 1`.  At
`max_scatter_depth = 1` the special case `color + throughput` returns
`(1,1,1)` instead (see the counterexample). -/
theorem C1_trace_empty_black (cam : Camera) (st : TracerSettings) (s : Scene)
    (hkd : s.kd = []) (_hl : s.lights = []) (henv : s.env = Env.Black)
    (hd : st.max_scatter_depth ≠ 1) (x y : ℝ) (sampler : UniformSampler) :
    Tracer.trace ⟨st, cam, s⟩ x y sampler = Vector3.zero := by
  rcases hcam : cam.ray x y sampler with ⟨ray0, smp0⟩
  rw [Tracer.trace]
  simp only [hcam, traceLoop_empty ⟨st, cam, s⟩ hkd henv]

/-- Counterexample for C1 as stated: at `max_scatter_depth = 1` the empty
black scene traces to `(1,1,1)`, not `(0,0,0)`. -/
theorem C1_counterexample :
    tracerDepth1.settings.max_scatter_depth = 1
    ∧ tracerDepth1.scene.kd = [] ∧ tracerDepth1.scene.lights = []
    ∧ tracerDepth1.scene.env = Env.Black
    ∧ tracerDepth1.trace 0 0 samplerZero = ⟨1, 1, 1⟩
    ∧ tracerDepth1.trace 0 0 samplerZero ≠ Vector3.zero := by
  have htr : tracerDepth1.trace 0 0 samplerZero = ⟨1, 1, 1⟩ := by
    rw [Tracer.trace]
    simp only [show tracerDepth1.camera.ray 0 0 samplerZero = (rayStd, samplerZero)
      from rfl, traceLoop_empty tracerDepth1 rfl rfl]
    show Vector3.zero + Vector3.one = _
    rw [Vector3.add_def]
    norm_num [Vector3.zero, Vector3.one]
  refine ⟨rfl, rfl, rfl, rfl, htr, ?_⟩
  rw [htr]
  intro hc
  have := congrArg Vector3.x hc
  norm_num [Vector3.zero] at this

/-- Witness for C1 at depth 2 on a concrete empty scene. -/
theorem C1_witness :
    sceneEmpty.kd = [] ∧ sceneEmpty.lights = [] ∧ sceneEmpty.env = Env.Black
    ∧ (⟨⟨2, false, false, 1, 100, 0⟩, cameraFixed, sceneEmpty⟩ : Tracer).settings.max_scatter_depth ≠ 1
    ∧ Tracer.trace ⟨⟨2, false, false, 1, 100, 0⟩, cameraFixed, sceneEmpty⟩ 0 0 samplerZero =
        Vector3.zero :=
  ⟨rfl, rfl, rfl, by norm_num,
    C1_trace_empty_black cameraFixed ⟨2, false, false, 1, 100, 0⟩ sceneEmpty rfl rfl rfl
      (by norm_num) 0 0 samplerZero⟩

end

end PathTracer
